import Mathlib

/-!
Verification of the AgencyCore pipeline orchestration core.

This file gives a shallow embedding, in Lean 4, of the parts of the
repository that the specification talks about: the permission evaluator
(src/core/permissions/index.ts), the eleven stage processors
(src/core/agents/*.ts, src/core/tools/toolRunner.ts), the file-backed
memory manager (src/core/memory/index.ts, modelled as in-memory state),
and the pipeline orchestrator (src/core/pipeline/orchestrator.ts).

Modelling conventions:
- JavaScript strings are modelled as Lean `String`; `.toLowerCase`,
  `.includes`, `.startsWith`, `.slice`, `.split(/\s+/)` are modelled
  character-exactly for ASCII text (the only text the repository uses).
- JavaScript numbers that the code keeps integral are modelled as `Nat`
  or `Int`; the score arithmetic of the Gatekeeper fallback path, which
  divides, is carried out in `Rat` with `Math.round x` modelled as
  `⌊x + 1/2⌋` (the JavaScript round-half-up rule).
- `async` functions are pure here; a rejected promise is an `Except.error`.
- The LLM provider is an oracle `Nat → Except String String` giving the
  response (or failure) of each successive `generate` call of one run;
  JSON parsing of the Gatekeeper score reply, done by the JavaScript
  runtime in the source, is an oracle `String → Option RawScores`.
- Wall-clock timestamps are an opaque string supplied in the run config;
  the `z.string().datetime()` checks of the schemas are modelled as true.
-/

namespace AgencyCore

/-! ## JavaScript string primitives -/

/-- Model of JavaScript `String.prototype.toLowerCase` (ASCII range). -/
def jsToLower (s : String) : String :=
  String.mk (s.data.map Char.toLower)

/-- Boolean test that `needle` occurs as a contiguous run inside `hay`,
scanning every suffix. -/
def occursIn (needle : List Char) : List Char → Bool
  | [] => needle.isEmpty
  | c :: rest => needle.isPrefixOf (c :: rest) || occursIn needle rest

/-- Model of JavaScript `hay.includes(needle)`. -/
def containsSub (hay needle : String) : Bool :=
  occursIn needle.data hay.data

/-- Model of JavaScript `s.startsWith(p)`. -/
def jsStartsWith (s p : String) : Bool :=
  p.data.isPrefixOf s.data

/-- Model of JavaScript `s.slice(0, n)` for ASCII strings. -/
def strSlice (s : String) (n : Nat) : String :=
  String.mk (s.data.take n)

/-- Model of JavaScript `Math.round`, which rounds half toward
positive infinity: `⌊q + 1/2⌋`. Computed on the numerator and
denominator directly (with Euclidean division, which agrees with floor
division for the positive denominator of a normalized rational) so
that concrete runs evaluate inside the kernel; `jsRound_eq_floor`
below proves the closed form. -/
def jsRound (q : ℚ) : ℤ :=
  (2 * q.num + (q.den : ℤ)) / (2 * (q.den : ℤ))

/-! ## Permission evaluator — src/core/permissions/index.ts -/

/-- The four Implementor action kinds of `ImplementorActionSchema`. -/
inductive ActionType where
  | createFile
  | editFile
  | runCommand
  | readFile
deriving DecidableEq, Repr

/-- One proposed Implementor action (`ImplementorAction`). Optional
fields are `Option` because the zod schema marks them `.optional()`. -/
structure ImplementorAction where
  type : ActionType
  path : Option String := none
  content : Option String := none
  command : Option String := none
  requiresApproval : Bool
  isDestructive : Bool
deriving DecidableEq, Repr

/-- `PermissionPolicy`. The TypeScript level type is the literal union
0 | 1 | 2 | 3; we use `Nat` and note that every construction site keeps
it within 0..3. -/
structure PermissionPolicy where
  currentLevel : Nat
  allowedWorkspacePaths : List String
  blockedCommands : List String
deriving DecidableEq, Repr

/-- `DEFAULT_BLOCKED_COMMANDS` of src/core/permissions/index.ts. -/
def DEFAULT_BLOCKED_COMMANDS : List String :=
  ["rm -rf", "rm -r /", "mkfs", "dd if=", "chmod -R 777", "sudo",
   "> /dev/sda", "format", "del /f /s", "shutdown", "reboot", "kill -9"]

/-- `createDefaultPolicy`. -/
def createDefaultPolicy (workspaceRoot : String) : PermissionPolicy :=
  { currentLevel := 1,
    allowedWorkspacePaths := [workspaceRoot],
    blockedCommands := DEFAULT_BLOCKED_COMMANDS }

/-- `PermissionCheckResult`. -/
structure PermissionCheckResult where
  allowed : Bool
  reason : String
  requiresApproval : Bool
deriving DecidableEq, Repr

/-- Printable name of an action type, as interpolated by the source
into the L0 refusal reason. -/
def actionTypeName : ActionType → String
  | .createFile => "createFile"
  | .editFile => "editFile"
  | .runCommand => "runCommand"
  | .readFile => "readFile"

/-- The command-check block of `checkPermission`: entered only for a
`runCommand` action with a truthy (non-empty) command string; a match in
the blocked-command list, or a git command at level 1, returns a blocked
result, otherwise the block falls through (`none`). -/
def commandCheck (a : ImplementorAction) (p : PermissionPolicy) :
    Option PermissionCheckResult :=
  if a.type = .runCommand then
    match a.command with
    | none => none
    | some cmd =>
      if cmd = "" then none
      else
        match p.blockedCommands.find?
            (fun b => containsSub (jsToLower cmd) (jsToLower b)) with
        | some b =>
          some { allowed := false,
                 reason := "Command blocked: contains \"" ++ b ++ "\"",
                 requiresApproval := true }
        | none =>
          if p.currentLevel = 1 ∧
              (jsStartsWith (jsToLower cmd) "git " ∨
               containsSub (jsToLower cmd) "git ") then
            some { allowed := false,
                   reason := "Git commands require L2 or higher",
                   requiresApproval := false }
          else none
  else none

/-- The workspace-path block of `checkPermission`: entered only for a
`createFile`/`editFile` action with a truthy path; a path starting with
no allowed workspace prefix returns a blocked result, otherwise the
block falls through. It never reads the current level. -/
def pathCheck (a : ImplementorAction) (p : PermissionPolicy) :
    Option PermissionCheckResult :=
  if a.type = .createFile ∨ a.type = .editFile then
    match a.path with
    | none => none
    | some path =>
      if path = "" then none
      else if p.allowedWorkspacePaths.any (fun ws => jsStartsWith path ws) then none
      else
        some { allowed := false,
               reason := "Path \"" ++ path ++ "\" is outside the allowed workspace",
               requiresApproval := false }
  else none

/-- `checkPermission` of src/core/permissions/index.ts, translated
clause for clause. The early-return chain of the source becomes a
nested conditional: L0 read-only rule, then the destructive rule, then
the command checks, then the path check, then the per-level allowance
clauses, then the final refusal. -/
def checkPermission (a : ImplementorAction) (p : PermissionPolicy) :
    PermissionCheckResult :=
  if p.currentLevel = 0 then
    if a.type = .readFile then
      { allowed := true, reason := "Read-only action allowed at L0",
        requiresApproval := false }
    else
      { allowed := false,
        reason := "Action \"" ++ actionTypeName a.type ++
          "\" blocked: current level is L0 (read-only planning)",
        requiresApproval := false }
  else if a.isDestructive then
    { allowed := false,
      reason := "Destructive action blocked by default – requires explicit approval",
      requiresApproval := true }
  else
    match commandCheck a p with
    | some r => r
    | none =>
      match pathCheck a p with
      | some r => r
      | none =>
        if p.currentLevel = 1 ∧
            (a.type = .createFile ∨ a.type = .editFile ∨ a.type = .readFile) then
          { allowed := true, reason := "File operation allowed at L1",
            requiresApproval := false }
        else if p.currentLevel = 1 ∧ a.type = .runCommand then
          { allowed := true, reason := "Non-destructive command allowed at L1",
            requiresApproval := false }
        else if 2 ≤ p.currentLevel then
          { allowed := true,
            reason := "Action allowed at L" ++ toString p.currentLevel,
            requiresApproval := false }
        else
          { allowed := false,
            reason := "Unknown action or insufficient permissions",
            requiresApproval := false }

/-- `evaluateActions`: partition a list of actions into the allowed ones
and the blocked ones paired with their check result, preserving order. -/
def evaluateActions (actions : List ImplementorAction) (p : PermissionPolicy) :
    List ImplementorAction × List (ImplementorAction × PermissionCheckResult) :=
  match actions with
  | [] => ([], [])
  | a :: rest =>
    let r := checkPermission a p
    let tail := evaluateActions rest p
    if r.allowed then (a :: tail.1, tail.2)
    else (tail.1, (a, r) :: tail.2)

/-- The same policy with another permission level, the only component
the promotion loop could conceivably change. -/
def withLevel (p : PermissionPolicy) (l : Nat) : PermissionPolicy :=
  { p with currentLevel := l }

/-! ## Observer agent — src/core/agents/observer.ts -/

/-- The whitespace class of the regexes `/\s+/` and `/[^a-z0-9\s]/g`
for the ASCII inputs the pipeline handles. -/
def isWsChar (c : Char) : Bool :=
  c = ' ' ∨ c = '\t' ∨ c = '\n' ∨ c = '\r'

/-- Characters kept by `replace(/[^a-z0-9\s]/g, "")` (applied after
lowercasing): ASCII lowercase letters, digits, and whitespace. -/
def keepChar (c : Char) : Bool :=
  ('a' ≤ c ∧ c ≤ 'z') ∨ ('0' ≤ c ∧ c ≤ '9') ∨ isWsChar c

/-- Accumulator-style splitter on whitespace runs. `acc` holds the
(reversed) characters of the token currently being read. -/
def splitWsAux : List Char → List Char → List (List Char)
  | [], acc => if acc = [] then [] else [acc.reverse]
  | c :: rest, acc =>
    if isWsChar c then
      if acc = [] then splitWsAux rest []
      else acc.reverse :: splitWsAux rest []
    else splitWsAux rest (c :: acc)

/-- Model of `split(/\s+/)` followed by the length filter of the source:
the maximal whitespace-free runs. (The JavaScript split also emits an
empty leading token when the string starts with whitespace; that token
has length 0 and is discarded by the `w.length > 2` filter that always
follows in the source, so it is dropped here directly.) -/
def splitWs (l : List Char) : List (List Char) :=
  splitWsAux l []

/-- Helper of `dedupFirst`: drop every element already seen. -/
def dedupFirstAux (seen : List String) : List String → List String
  | [] => []
  | x :: xs =>
    if x ∈ seen then dedupFirstAux seen xs
    else x :: dedupFirstAux (x :: seen) xs

/-- First-occurrence deduplication, the order `[...new Set(words)]`
produces in JavaScript. -/
def dedupFirst (l : List String) : List String :=
  dedupFirstAux [] l

/-- The `stopWords` set of `extractKeywords`. -/
def stopWords : List String :=
  ["a", "an", "the", "and", "or", "but", "is", "are", "was", "were",
   "to", "of", "in", "for", "on", "with", "at", "by", "from", "it",
   "this", "that", "be", "have", "do", "will", "can", "create", "make"]

/-- `extractKeywords` of src/core/agents/observer.ts: lowercase, strip
everything but `[a-z0-9\s]`, split on whitespace, keep tokens longer
than 2 characters that are not stop words, deduplicate keeping first
occurrences, cap at 10. -/
def extractKeywords (text : String) : List String :=
  let lowered := jsToLower text
  let cleaned := lowered.data.filter keepChar
  let words := (splitWs cleaned).map String.mk
  let kept := words.filter (fun w => decide (2 < w.length) && !(stopWords.contains w))
  (dedupFirst kept).take 10

/-- `classifyDomain` of src/core/agents/observer.ts. -/
def classifyDomain (text : String) : String :=
  let lower := jsToLower text
  if containsSub lower "test" ∨ containsSub lower "spec" ∨ containsSub lower "qa" then "QA"
  else if containsSub lower "design" ∨ containsSub lower "css" ∨ containsSub lower "ui" then "Design"
  else if containsSub lower "deploy" ∨ containsSub lower "ci" ∨ containsSub lower "docker" then "DevOps"
  else "Dev"

/-- `ObserverOutput` (agent literal tag omitted; it is the same in
every value of the type). -/
structure ObserverOutput where
  summary : String
  keywords : List String
  domain : String
  rawInput : String
  timestamp : String
deriving DecidableEq, Repr

/-- `Observer.run`, given the text the provider returned for its single
`generate` call. -/
def observerRun (reasoning input now : String) : ObserverOutput :=
  { summary := "Task request: " ++ strSlice input 200 ++ ". " ++ reasoning,
    keywords := extractKeywords input,
    domain := classifyDomain input,
    rawInput := input,
    timestamp := now }

/-- An ASCII lowercase letter or digit: the only characters that can
survive both the punctuation strip and the whitespace split. -/
def isLowerAlnum (c : Char) : Bool :=
  ('a' ≤ c ∧ c ≤ 'z') ∨ ('0' ≤ c ∧ c ≤ '9')

/-- The non-vacuous constraints of `ObserverOutputSchema`: `summary`,
`domain` are non-empty strings and `keywords` has at least one entry
(`z.array(z.string()).min(1)`). The `datetime` check is modelled true. -/
def validateObserver (o : ObserverOutput) : Bool :=
  decide (1 ≤ o.summary.length) && decide (1 ≤ o.keywords.length) &&
  decide (1 ≤ o.domain.length)

/-! ## Guide and Planner data -/

/-- The task owner roles of `PlannerTaskSchema`. -/
inductive Owner where
  | implementor
  | qa
  | design
deriving DecidableEq, Repr

/-- The complexity tiers of `GuideOutputSchema`. -/
inductive Complexity where
  | low
  | medium
  | high
deriving DecidableEq, Repr

/-- One plan step of `GuideOutputSchema`. -/
structure GuideStep where
  stepNumber : Nat
  action : String
  rationale : String
  expectedOutput : String
deriving DecidableEq, Repr

/-- `GuideOutput`. -/
structure GuideOutput where
  plan : List GuideStep
  estimatedComplexity : Complexity
  warnings : List String
  bestPractices : List String
  timestamp : String
deriving DecidableEq, Repr

/-- One task of `PlannerOutputSchema`. -/
structure PlannerTask where
  id : String
  title : String
  description : String
  owner : Owner
  steps : List String
  definitionOfDone : List String
  dependencies : List String
deriving DecidableEq, Repr

/-- `PlannerOutput`. -/
structure PlannerOutput where
  tasks : List PlannerTask
  timestamp : String
deriving DecidableEq, Repr

/-! ## SafetyGuard agent — src/core/agents/safetyGuard.ts -/

/-- `SafetyGuardOutput`. -/
structure SafetyGuardOutput where
  safe : Bool
  risks : List String
  blockedActions : List String
  requiresApproval : Bool
  timestamp : String
deriving DecidableEq, Repr

/-- `DANGEROUS_PATTERNS` of src/core/agents/safetyGuard.ts (21 entries,
distinct from the ToolRunner and permission lists). -/
def DANGEROUS_PATTERNS : List String :=
  ["rm -rf", "rm -r /", "mkfs", "dd if=", "chmod -R 777", "sudo",
   "> /dev/sda", "format c:", "del /f /s", "shutdown", "reboot",
   "drop database", "drop table", "truncate table", "delete from",
   "process.env", "api_key", "api_secret", "password", "secret_key",
   "private_key"]

/-- The dangerous patterns matching one plan step, in list order
(case-insensitive on both sides, as in the source). -/
def stepPatternHits (step : String) : List String :=
  DANGEROUS_PATTERNS.filter (fun pat => containsSub (jsToLower step) (jsToLower pat))

/-- Blocked-action entries contributed by the dangerous-pattern loop
for one step of one task. -/
def stepBlockedEntries (t : PlannerTask) (step : String) : List String :=
  (stepPatternHits step).map (fun pat =>
    "Task " ++ t.id ++ ": Step \"" ++ step ++ "\" contains dangerous pattern \"" ++
      pat ++ "\"")

/-- Risk entries contributed by the dangerous-pattern loop for one
step of one task. -/
def stepRiskEntries (t : PlannerTask) (step : String) : List String :=
  (stepPatternHits step).map (fun pat =>
    "Dangerous pattern \"" ++ pat ++ "\" detected in task \"" ++ t.title ++ "\"")

/-- The secret-exposure test on one step: a logging call together with
a secret-like token. -/
def secretExposure (step : String) : Bool :=
  containsSub (jsToLower step) "console.log" &&
  (containsSub (jsToLower step) "key" || containsSub (jsToLower step) "secret" ||
   containsSub (jsToLower step) "password")

/-- The out-of-workspace test on a task description (case-sensitive in
the source). -/
def descSystemPath (t : PlannerTask) : Bool :=
  containsSub t.description "/etc/" || containsSub t.description "/usr/" ||
  containsSub t.description "/root/" || containsSub t.description "C:\\Windows"

/-- All blocked-action entries of one task: the dangerous-pattern hits
of each step in order, then the system-path entry. -/
def taskBlockedEntries (t : PlannerTask) : List String :=
  (t.steps.flatMap (fun s => stepBlockedEntries t s)) ++
  (if descSystemPath t then
    ["Task " ++ t.id ++ ": References system path outside workspace"] else [])

/-- All risk entries of one task: per step the pattern risks then the
secret-exposure risk, then the system-path risk. -/
def taskRiskEntries (t : PlannerTask) : List String :=
  (t.steps.flatMap (fun s =>
    stepRiskEntries t s ++
    (if secretExposure s then
      ["Potential secret exposure in task \"" ++ t.title ++ "\": " ++ s] else []))) ++
  (if descSystemPath t then
    ["Out-of-workspace path in task \"" ++ t.title ++ "\""] else [])

/-- `SafetyGuard.run` as a function of the parts of its input it reads:
the planner tasks, the guide complexity, and the live policy level.
(The provider call the source makes first is threaded by the
orchestrator model; its text is ignored by this agent.) -/
def safetyGuardRun (tasks : List PlannerTask) (complexity : Complexity)
    (policyLevel : Nat) (now : String) : SafetyGuardOutput :=
  let blockedActions := tasks.flatMap taskBlockedEntries
  let writeTasks := tasks.filter (fun t => t.owner = Owner.implementor)
  let l0Flag : Bool := decide (policyLevel = 0) && decide (0 < writeTasks.length)
  let risks :=
    tasks.flatMap taskRiskEntries ++
    (if l0Flag then
      [toString writeTasks.length ++
        " implementor tasks require L1+ permissions (current: L0)"] else []) ++
    (if complexity = .high then
      ["High complexity plan – recommend additional review"] else [])
  let requiresApproval := tasks.any (fun t => t.steps.any secretExposure) || l0Flag
  { safe := decide (blockedActions.length = 0) && !requiresApproval,
    risks := risks,
    blockedActions := blockedActions,
    requiresApproval := requiresApproval,
    timestamp := now }

/-! ## Implementor output -/

/-- `ImplementorOutput`. -/
structure ImplementorOutput where
  actions : List ImplementorAction
  explanation : String
  filesCreated : List String
  filesModified : List String
  commandsRun : List String
  blocked : List String
  timestamp : String
deriving DecidableEq, Repr

/-! ## Gatekeeper scoring — src/core/agents/gatekeeper.ts -/

/-- `Scorecard`. The zod schema constrains each dimension to an
integer in 0..5; the constraint is enforced by validation, not by the
type, so the fields are plain integers here as in TypeScript. -/
structure Scorecard where
  correctness : ℤ
  verification : ℤ
  safety : ℤ
  clarity : ℤ
  autonomy : ℤ
deriving DecidableEq, Repr

/-- The total score: the sum the Gatekeeper computes from the five
dimensions. -/
def Scorecard.total (s : Scorecard) : ℤ :=
  s.correctness + s.verification + s.safety + s.clarity + s.autonomy

/-- The five raw numbers a successful JSON parse of the provider score
reply yields. A missing or non-numeric field is `none`: the
`Number(...)` conversion of the source then yields NaN and `clampScore`
returns 2. -/
structure RawScores where
  correctness : Option ℚ
  verification : Option ℚ
  safety : Option ℚ
  clarity : Option ℚ
  autonomy : Option ℚ

/-- `clampScore`: round, then clamp into 0..5, with 2 for NaN. -/
def clampScore : Option ℚ → ℤ
  | none => 2
  | some q => max 0 (min 5 (jsRound q))

/-- `Gatekeeper.fallbackScorecard`: the deterministic scoring used when
the provider call fails or its reply does not parse. -/
def fallbackScorecard (impl : ImplementorOutput) (guide : Option GuideOutput) :
    Scorecard :=
  let totalActions := impl.actions.length
  let blockedCount := impl.blocked.length
  let successRate : ℚ :=
    if 0 < totalActions then
      ((totalActions : ℚ) - (blockedCount : ℚ)) / (totalActions : ℚ)
    else 0
  { correctness := jsRound (successRate * 5),
    verification :=
      match guide with
      | some g => min (g.plan.length : ℤ) 5
      | none => 1,
    safety := if blockedCount = 0 then 5 else max 1 (5 - (blockedCount : ℤ)),
    clarity := if 20 < impl.explanation.length then 4 else 2,
    autonomy := min 5 (jsRound (successRate * 4) + 1) }

/-- `Gatekeeper.llmScorecard`: ask the provider; if the call fails or
the reply does not parse, fall back to the deterministic formula;
otherwise clamp each parsed value into 0..5. The markdown-fence
stripping and `JSON.parse` of the source are folded into the parse
oracle. -/
def llmScorecardModel (llmResult : Except String String)
    (parse : String → Option RawScores)
    (impl : ImplementorOutput) (guide : Option GuideOutput) : Scorecard :=
  match llmResult with
  | .error _ => fallbackScorecard impl guide
  | .ok raw =>
    match parse raw with
    | none => fallbackScorecard impl guide
    | some r =>
      { correctness := clampScore r.correctness,
        verification := clampScore r.verification,
        safety := clampScore r.safety,
        clarity := clampScore r.clarity,
        autonomy := clampScore r.autonomy }

/-- The fallback formula exactly as claim C7 states it, written from
the specification words (with the one amendment the counterexample
forces: the clarity threshold is strictly greater than 20, not at
least 20). -/
def specFallbackFormula (totalActions blockedCount planStepCount explLen : Nat) :
    Scorecard :=
  let successRate : ℚ :=
    if totalActions = 0 then 0
    else ((totalActions : ℚ) - (blockedCount : ℚ)) / (totalActions : ℚ)
  { correctness :=
      if totalActions = 0 then 0
      else jsRound (5 * ((totalActions : ℚ) - (blockedCount : ℚ)) / (totalActions : ℚ)),
    verification := min (planStepCount : ℤ) 5,
    safety := if blockedCount = 0 then 5 else max 1 (5 - (blockedCount : ℤ)),
    clarity := if 20 < explLen then 4 else 2,
    autonomy := min 5 (jsRound (successRate * 4) + 1) }

/-- The condition of C7: the provider call failed, or its reply did
not parse. -/
def scoringFellBack (llmResult : Except String String)
    (parse : String → Option RawScores) : Prop :=
  match llmResult with
  | .error _ => True
  | .ok raw => parse raw = none

/-! ## PatternObserver agent — src/core/agents/patternObserver.ts -/

/-- One pattern hint of `PatternObserverOutputSchema`. -/
structure Pattern where
  name : String
  description : String
  confidence : ℚ
deriving DecidableEq, Repr

/-- `PatternObserverOutput`. -/
structure PatternObserverOutput where
  patterns : List Pattern
  similarPastTasks : List String
  suggestedApproach : String
  timestamp : String
deriving DecidableEq, Repr

/-- `PatternObserver.run`: one pattern per keyword with confidence
`max(0.5, 1 − i·0.1)`, falling back to one generic pattern when there
are no keywords. -/
def patternObserverRun (reasoning : String) (obs : ObserverOutput) (now : String) :
    PatternObserverOutput :=
  let patterns := obs.keywords.enum.map (fun p =>
    { name := p.2 ++ "-pattern",
      description := "Pattern related to \"" ++ p.2 ++ "\" – " ++ strSlice reasoning 60,
      -- `Math.max(0.5, 1 - i * 0.1)`, written as a quotient of integers
      confidence := max (Rat.divInt 1 2) (Rat.divInt (10 - (p.1 : ℤ)) 10) })
  { patterns :=
      if 0 < patterns.length then patterns
      else [{ name := "general", description := "General task pattern",
              confidence := Rat.divInt 1 2 }],
    similarPastTasks := [],
    suggestedApproach := "Based on domain \"" ++ obs.domain ++ "\" and " ++
      toString obs.keywords.length ++ " keywords, use a structured implementation approach.",
    timestamp := now }

/-! ## CruxFinder agent — src/core/agents/cruxFinder.ts -/

/-- `CruxFinderOutput`. -/
structure CruxFinderOutput where
  coreProblem : String
  subProblems : List String
  assumptions : List String
  constraints : List String
  requiredKnowledge : List String
  timestamp : String
deriving DecidableEq, Repr

/-- `CruxFinder.run` (its provider reply is discarded by the source). -/
def cruxFinderRun (obs : ObserverOutput) (now : String) : CruxFinderOutput :=
  let subProblems := obs.keywords.map (fun kw => "Implement " ++ kw ++ " component")
  { coreProblem := "Implement: " ++ strSlice obs.summary 120,
    subProblems :=
      if 0 < subProblems.length then subProblems
      else ["Implement the requested feature"],
    assumptions := ["TypeScript/Node.js environment available",
      "Standard file system access permitted"],
    constraints := ["Domain: " ++ obs.domain,
      "Must follow safety permissions policy"],
    requiredKnowledge := obs.keywords.map (fun kw => "Knowledge of " ++ kw),
    timestamp := now }

/-! ## Lessons, portfolio, memory — src/core/memory/index.ts -/

/-- `CandidateLesson`. -/
structure CandidateLesson where
  title : String
  content : String
  tags : List String
  source : String
deriving DecidableEq, Repr

/-- `LessonFile`: an approved, durable lesson. -/
structure LessonFile where
  id : String
  title : String
  content : String
  tags : List String
  source : String
  approvedAt : String
  approvedBy : String
deriving DecidableEq, Repr

/-- `PortfolioEntry`. -/
structure PortfolioEntry where
  runId : String
  request : String
  completedAt : String
  scorecard : Scorecard
  totalScore : ℤ
  artifactPath : String
deriving DecidableEq, Repr

/-- Splitter into maximal runs of lowercase-alphanumeric characters,
used by `sanitize`. -/
def splitNonAlnumAux : List Char → List Char → List (List Char)
  | [], acc => if acc = [] then [] else [acc.reverse]
  | c :: rest, acc =>
    if isLowerAlnum c then splitNonAlnumAux rest (c :: acc)
    else if acc = [] then splitNonAlnumAux rest []
    else acc.reverse :: splitNonAlnumAux rest []

/-- `sanitize` of src/core/memory/index.ts: lowercase, replace every
run of non-alphanumeric characters by one dash, strip leading and
trailing dashes, cap at 60 characters. (Modelled as: join the maximal
alphanumeric runs with dashes, then cap — the same function.) -/
def sanitize (s : String) : String :=
  strSlice (String.intercalate "-"
    ((splitNonAlnumAux (jsToLower s).data []).map String.mk)) 60

/-! ## Retriever agent — src/core/agents/retriever.ts -/

/-- `RetrieverOutput`. -/
structure RetrieverOutput where
  lessons : List String
  playbooks : List String
  examples : List String
  timestamp : String
deriving DecidableEq, Repr

/-- Number of search terms occurring in a haystack string. -/
def relevanceScore (haystack : String) (terms : List String) : Nat :=
  terms.foldl (fun acc term => acc + (if containsSub haystack term then 1 else 0)) 0

/-- Stable insertion (descending by score): a new element goes after
every element with an equal or higher score, which reproduces the
stable `sort((a, b) => b.score - a.score)` of the source. -/
def insertByScoreDesc {α : Type} (x : α × Nat) : List (α × Nat) → List (α × Nat)
  | [] => [x]
  | y :: ys => if y.2 < x.2 then x :: y :: ys else y :: insertByScoreDesc x ys

/-- Stable descending sort by score. -/
def sortByScoreDesc {α : Type} (l : List (α × Nat)) : List (α × Nat) :=
  l.foldl (fun acc x => insertByScoreDesc x acc) []

/-- `Retriever.rankByRelevance` on lesson files. -/
def rankByRelevance (lessons : List LessonFile) (terms : List String) :
    List LessonFile :=
  let scored := lessons.map (fun l =>
    (l, relevanceScore (jsToLower (String.intercalate " " ([l.title, l.content] ++ l.tags))) terms))
  (sortByScoreDesc (scored.filter (fun s => 0 < s.2))).map (fun s => s.1)

/-- `Retriever.rankStringsByRelevance` on raw playbook texts. -/
def rankStringsByRelevance (items : List String) (terms : List String) :
    List String :=
  let scored := items.map (fun i => (i, relevanceScore (jsToLower i) terms))
  (sortByScoreDesc (scored.filter (fun s => 0 < s.2))).map (fun s => s.1)

/-! ## Guide agent — src/core/agents/guide.ts -/

/-- `Guide.run`: one step per sub-problem plus a final verification
step; complexity from the sub-problem count; best practices from up to
3 retrieved lessons and up to 3 previous-run improvement notes, with a
generic fallback when both are empty. -/
def guideRun (crux : CruxFinderOutput) (retr : Option RetrieverOutput)
    (previousImprovements : Option (List String)) (now : String) : GuideOutput :=
  let steps := crux.subProblems.enum.map (fun p =>
    ({ stepNumber := p.1 + 1, action := p.2,
       rationale := "Addresses sub-problem: " ++ p.2,
       expectedOutput := "Completed: " ++ p.2 } : GuideStep))
  let plan := steps ++ [{ stepNumber := steps.length + 1,
                          action := "Verify all sub-problems are resolved",
                          rationale := "Ensure completeness and correctness",
                          expectedOutput := "All checks pass" }]
  let bestPractices :=
    (match retr with
     | some r => (r.lessons.take 3).map (fun l => "Lesson: " ++ l)
     | none => []) ++
    (match previousImprovements with
     | some pi => (pi.take 3).map (fun i => "Improvement: " ++ i)
     | none => [])
  { plan := plan,
    estimatedComplexity :=
      if 5 < crux.subProblems.length then .high
      else if 2 < crux.subProblems.length then .medium
      else .low,
    warnings := crux.constraints,
    bestPractices :=
      if bestPractices.length = 0 then ["Follow established project conventions"]
      else bestPractices,
    timestamp := now }

/-! ## Planner agent — src/core/agents/planner.ts -/

/-- Model of `String(n).padStart(3, "0")`. -/
def padStart3 (n : Nat) : String :=
  let s := toString n
  if 3 ≤ s.length then s
  else String.mk (List.replicate (3 - s.length) '0') ++ s

/-- `Planner.run`: one task per guide plan step with sequential ids,
QA ownership for verification steps, the fixed analyse/execute/verify
sub-steps, and a linear dependency chain. -/
def plannerRun (guide : GuideOutput) (now : String) : PlannerOutput :=
  { tasks := guide.plan.enum.map (fun p =>
      { id := "task-" ++ padStart3 (p.1 + 1),
        title := strSlice p.2.action 80,
        description := "Step " ++ toString p.2.stepNumber ++ ": " ++ p.2.action ++
          ". Rationale: " ++ p.2.rationale,
        owner := if containsSub (jsToLower p.2.action) "verify" then Owner.qa
                 else Owner.implementor,
        steps := ["Analyse: " ++ p.2.rationale, "Execute: " ++ p.2.action,
          "Verify: " ++ p.2.expectedOutput],
        definitionOfDone := [p.2.expectedOutput, "No errors or warnings"],
        dependencies := if 0 < p.1 then ["task-" ++ padStart3 p.1] else [] }),
    timestamp := now }

/-! ## Implementor agent -/

/-- Modelled from the spec: the Implementor agent implementation file
is absent from src/ (only its zod schema, its callers, and its tests
are present). Per §4.9 of the specification the stage derives proposed
actions and an explanation from the Guidance and Observation outputs —
an LLM-driven derivation, abstracted here as the `propose` and
`explanationOf` oracles of the run config — then passes every proposed
action through the permission evaluator (`evaluateActions`, translated
from source) against the live policy, records actions failing the
check in the blocked list with the evaluator reason, and derives the
files-created / files-modified / commands-run lists from the accepted
actions. It only reads the policy. -/
def implementorRun (propose : List ImplementorAction) (explanation : String)
    (policy : PermissionPolicy) (now : String) : ImplementorOutput :=
  let ev := evaluateActions propose policy
  { actions := propose,
    explanation := explanation,
    filesCreated := (ev.1.filter (fun a => a.type = ActionType.createFile)).filterMap
      (fun a => a.path),
    filesModified := (ev.1.filter (fun a => a.type = ActionType.editFile)).filterMap
      (fun a => a.path),
    commandsRun := (ev.1.filter (fun a => a.type = ActionType.runCommand)).filterMap
      (fun a => a.command),
    blocked := ev.2.map (fun p => p.2.reason),
    timestamp := now }

/-! ## ToolRunner — src/core/tools/toolRunner.ts -/

/-- One executed-command record. -/
structure ExecutedCommand where
  command : String
  success : Bool
  output : String
  mockMode : Bool
deriving DecidableEq, Repr

/-- `ToolRunnerOutput`. -/
structure ToolRunnerOutput where
  executedCommands : List ExecutedCommand
  skippedCommands : List String
  timestamp : String
deriving DecidableEq, Repr

/-- `BLOCKED_COMMANDS` of src/core/tools/toolRunner.ts (14 entries, an
independently maintained list that overlaps but differs from the
SafetyGuard and permission lists). -/
def TOOLRUNNER_BLOCKED_COMMANDS : List String :=
  ["rm -rf", "rm -r /", "mkfs", "dd if=", "chmod -R 777", "sudo",
   "> /dev/sda", "format", "del /f /s", "shutdown", "reboot", "kill -9",
   "drop database", "drop table"]

/-- `ToolRunner.isDangerous`. -/
def isDangerousCmd (cmd : String) : Bool :=
  TOOLRUNNER_BLOCKED_COMMANDS.any (fun pat => containsSub (jsToLower cmd) (jsToLower pat))

/-- `ToolRunner.run`: dangerous commands and approval-required commands
are skipped; the rest are mock-executed (or scaffold-logged in live
mode); non-destructive file actions are echoed into the executed list,
destructive ones skipped. -/
def toolRunnerRun (impl : ImplementorOutput) (mockMode : Bool) (now : String) :
    ToolRunnerOutput :=
  let commandActions := impl.actions.filterMap (fun a =>
    if a.type = ActionType.runCommand then a.command.map (fun c => (a, c)) else none)
  let cmdResults : List (String ⊕ ExecutedCommand) := commandActions.map (fun p =>
    if isDangerousCmd p.2 then .inl ("BLOCKED (dangerous): " ++ p.2)
    else if p.1.requiresApproval then .inl ("SKIPPED (requires approval): " ++ p.2)
    else .inr { command := p.2, success := true,
                output :=
                  if mockMode then "[MOCK] Would execute: " ++ p.2
                  else "[SCAFFOLD] Live execution not yet implemented: " ++ p.2,
                mockMode := mockMode })
  let fileActions := impl.actions.filter (fun a =>
    a.type = ActionType.createFile ∨ a.type = ActionType.editFile)
  let fileExec := (fileActions.filter (fun a => !a.isDestructive)).map (fun a =>
    ({ command := actionTypeName a.type ++ ": " ++ a.path.getD "unknown",
       success := true,
       output :=
         if mockMode then
           "[MOCK] Would " ++ actionTypeName a.type ++ ": " ++ a.path.getD "unknown"
         else "[SCAFFOLD] " ++ actionTypeName a.type ++ ": " ++ a.path.getD "unknown",
       mockMode := mockMode } : ExecutedCommand))
  let fileSkipped := (fileActions.filter (fun a => a.isDestructive)).map (fun a =>
    "BLOCKED (destructive file op): " ++ a.path.getD "unknown")
  { executedCommands :=
      cmdResults.filterMap (fun s => match s with | .inr e => some e | .inl _ => none) ++
      fileExec,
    skippedCommands :=
      cmdResults.filterMap (fun s => match s with | .inl m => some m | .inr _ => none) ++
      fileSkipped,
    timestamp := now }

/-! ## Learner agent — src/core/agents/learner.ts -/

/-- `LearnerOutput`. -/
structure LearnerOutput where
  reflection : String
  candidateLessons : List CandidateLesson
  growthAreas : List String
  currentLevel : Nat
  questionsForNextTime : List String
  timestamp : String
deriving DecidableEq, Repr

/-- Printable complexity tier, as interpolated by the source. -/
def complexityName : Complexity → String
  | .low => "low"
  | .medium => "medium"
  | .high => "high"

/-- `Learner.run`: always proposes one domain-pattern lesson, plus one
permission-boundary lesson when any action was blocked; reports the
standalone permission level it is carrying. -/
def learnerRun (reasoning : String) (level : Nat) (obs : ObserverOutput)
    (guide : GuideOutput) (impl : ImplementorOutput) (runId now : String) :
    LearnerOutput :=
  let lessons :=
    [({ title := "Working in " ++ obs.domain ++ " domain",
        content := "When working in the " ++ obs.domain ++
         " domain, follow the approach: " ++
         ((guide.plan.head?.map (fun s => s.action)).getD "plan first") ++ ". " ++ reasoning,
        tags := jsToLower obs.domain :: obs.keywords.take 3,
        source := "run:" ++ runId } : CandidateLesson)] ++
    (if 0 < impl.blocked.length then
      [{ title := "Permission boundaries learned",
         content := "Some actions were blocked: " ++
           String.intercalate "; " impl.blocked ++
           ". In future runs, ensure permissions are appropriate before attempting restricted actions.",
         tags := ["safety", "permissions"],
         source := "run:" ++ runId }]
     else [])
  { reflection := "Completed a " ++ complexityName guide.estimatedComplexity ++
      " complexity task in the " ++ obs.domain ++ " domain. " ++
      toString impl.actions.length ++ " actions proposed, " ++
      toString impl.blocked.length ++ " blocked. " ++ reasoning,
    candidateLessons := lessons,
    growthAreas :=
      (if 0 < impl.blocked.length then ["Understanding permission boundaries"] else []) ++
      (if guide.estimatedComplexity = .high then ["Handling complex tasks"] else []) ++
      ["Expanding domain knowledge"],
    currentLevel := level,
    questionsForNextTime :=
      ["How can I improve my approach to " ++ obs.domain ++ " tasks?",
       "What patterns should I recognise faster?"],
    timestamp := now }

/-! ## Gatekeeper output — src/core/agents/gatekeeper.ts -/

/-- `GatekeeperDecision`. -/
structure GatekeeperDecision where
  approveLesson : Bool
  promote : Bool
  newLevel : Option Nat
  allowClone : Bool
deriving DecidableEq, Repr

/-- `GatekeeperOutput`. -/
structure GatekeeperOutput where
  scorecard : Scorecard
  totalScore : ℤ
  decision : GatekeeperDecision
  feedback : String
  improvements : List String
  approvedLessons : List String
  rejectedLessons : List String
  timestamp : String
deriving DecidableEq, Repr

/-- `Gatekeeper.generateFeedback`: a score-tier phrase plus conditional
safety and correctness call-outs, joined with spaces. -/
def generateFeedback (sc : Scorecard) (total : ℤ) : String :=
  String.intercalate " "
    ((if 20 ≤ total then ["Excellent work. Promotion candidate."]
      else if 15 ≤ total then ["Good performance. Lessons approved."]
      else if 10 ≤ total then ["Acceptable but needs improvement."]
      else ["Below expectations. Review needed."]) ++
     (if sc.safety < 3 then ["Safety concerns detected – review permissions."] else []) ++
     (if sc.correctness < 3 then ["Correctness issues – review implementation."] else []))

/-- `Gatekeeper.generateImprovements`: one canned note per dimension
below 4, plus a risk-count note when the Safety stage reported risks. -/
def generateImprovements (sc : Scorecard) (safetyGuard : Option SafetyGuardOutput) :
    List String :=
  (if sc.safety < 4 then
    ["Add explicit safety checks before destructive operations"] else []) ++
  (if sc.correctness < 4 then
    ["Improve verification steps to catch implementation errors"] else []) ++
  (if sc.verification < 4 then
    ["Add more thorough testing and verification steps"] else []) ++
  (if sc.clarity < 4 then
    ["Provide more detailed explanations for each action"] else []) ++
  (if sc.autonomy < 4 then
    ["Reduce unnecessary approval requests for safe operations"] else []) ++
  (match safetyGuard with
   | some sg =>
     if 0 < sg.risks.length then
       ["Address " ++ toString sg.risks.length ++ " safety risks in plan"]
     else []
   | none => [])

/-! ## Run artifact and memory state -/

/-- `RunArtifact`: the durable record of one completed run. -/
structure RunArtifact where
  runId : String
  request : String
  startedAt : String
  completedAt : String
  observer : ObserverOutput
  patternObserver : PatternObserverOutput
  cruxFinder : CruxFinderOutput
  retriever : RetrieverOutput
  guide : GuideOutput
  planner : PlannerOutput
  safetyGuard : SafetyGuardOutput
  implementor : ImplementorOutput
  toolRunner : ToolRunnerOutput
  gatekeeper : GatekeeperOutput
  learner : LearnerOutput
  success : Bool
  error : Option String := none
deriving DecidableEq, Repr

/-- The file store of `MemoryManager` as in-memory state: candidate
lessons keyed by id, approved lessons, playbook texts, portfolio
entries, and run artifacts (the logs directory). -/
structure MemoryState where
  candidates : List (String × CandidateLesson)
  lessons : List LessonFile
  playbooks : List String
  portfolio : List PortfolioEntry
  artifacts : List RunArtifact
deriving DecidableEq, Repr

/-- A fresh, empty memory directory. -/
def emptyMemory : MemoryState :=
  { candidates := [], lessons := [], playbooks := [], portfolio := [],
    artifacts := [] }

/-- `MemoryManager.saveCandidateLesson`: the id is the run id joined
with the sanitized title; the candidate file is written (appended
here; a duplicate id would overwrite the same file, which the pipeline
never produces). -/
def saveCandidateLesson (mem : MemoryState) (lesson : CandidateLesson)
    (runId : String) : String × MemoryState :=
  let id := runId ++ "-" ++ sanitize lesson.title
  (id, { mem with candidates := mem.candidates ++ [(id, lesson)] })

/-- `MemoryManager.approveLesson`: move a candidate to the durable
lessons with approver "Gatekeeper"; a missing candidate file is a
thrown error. -/
def approveLesson (mem : MemoryState) (candidateId now : String) :
    Except String MemoryState :=
  match mem.candidates.find? (fun q => q.1 = candidateId) with
  | none => .error ("candidate not found: " ++ candidateId)
  | some q =>
    .ok { mem with
      lessons := mem.lessons ++
        [{ id := q.1, title := q.2.title, content := q.2.content,
           tags := q.2.tags, source := q.2.source,
           approvedAt := now, approvedBy := "Gatekeeper" }],
      candidates := mem.candidates.filter (fun r => r.1 ≠ candidateId) }

/-- `MemoryManager.rejectLesson`: delete the candidate, ignoring a
missing file. -/
def rejectLesson (mem : MemoryState) (candidateId : String) : MemoryState :=
  { mem with candidates := mem.candidates.filter (fun r => r.1 ≠ candidateId) }

/-- `Retriever.run`: search terms from sub-problems, required
knowledge, observer keywords and pattern names; ranked lessons capped
at 5, playbooks at 3; portfolio examples filtered by total score ≥ 15
and capped at 3 in store order. -/
def retrieverRun (crux : CruxFinderOutput) (pat : PatternObserverOutput)
    (obsKeywords : List String) (mem : MemoryState) (now : String) :
    RetrieverOutput :=
  let searchTerms := (crux.subProblems ++ crux.requiredKnowledge ++ obsKeywords ++
    pat.patterns.map (fun q => q.name)).map jsToLower
  { lessons := ((rankByRelevance mem.lessons searchTerms).take 5).map
      (fun l => "[" ++ l.title ++ "] " ++ l.content),
    playbooks := (rankStringsByRelevance mem.playbooks searchTerms).take 3,
    examples := ((mem.portfolio.filter (fun q => (15 : ℤ) ≤ q.totalScore)).take 3).map
      (fun q => "Run " ++ q.runId ++ ": \"" ++ q.request ++ "\" (score: " ++
        toString q.totalScore ++ "/25)"),
    timestamp := now }

/-! ## Pipeline context and the Gatekeeper stage -/

/-- `PipelineContext`: the mutable per-run object, with one optional
slot per stage, the run id, the request, and the improvement notes
carried from the previous run. -/
structure PipelineContext where
  runId : String
  request : String
  previousImprovements : List String
  observer : Option ObserverOutput := none
  patternObserver : Option PatternObserverOutput := none
  cruxFinder : Option CruxFinderOutput := none
  retriever : Option RetrieverOutput := none
  guide : Option GuideOutput := none
  planner : Option PlannerOutput := none
  safetyGuard : Option SafetyGuardOutput := none
  implementor : Option ImplementorOutput := none
  toolRunner : Option ToolRunnerOutput := none
  gatekeeper : Option GatekeeperOutput := none
  learner : Option LearnerOutput := none

/-- The candidate-lesson loop of `Gatekeeper.run`: persist each
candidate, then approve it when the total score is at least 15, else
reject (delete) it, collecting the approved and rejected titles. -/
def lessonLoop : List CandidateLesson → ℤ → String → MemoryState → String →
    Except String (List String × List String × MemoryState)
  | [], _, _, mem, _ => .ok ([], [], mem)
  | l :: rest, total, runId, mem, now =>
    let saved := saveCandidateLesson mem l runId
    if (15 : ℤ) ≤ total then
      match approveLesson saved.2 saved.1 now with
      | .error e => .error e
      | .ok mem2 =>
        match lessonLoop rest total runId mem2 now with
        | .error e => .error e
        | .ok (ap, rj, mem3) => .ok (l.title :: ap, rj, mem3)
    else
      let mem2 := rejectLesson saved.2 saved.1
      match lessonLoop rest total runId mem2 now with
      | .error e => .error e
      | .ok (ap, rj, mem3) => .ok (ap, l.title :: rj, mem3)

/-- `Gatekeeper.run`: throws when the Implementor output is missing
from the context; scores via the provider with deterministic fallback;
disposes of the candidate lessons of `context.learner` when that slot
is populated; decides promotion from the total score, proposing
`min(currentLevel + 1, 3)` where `currentLevel` is read from
`context.learner?.currentLevel ?? 0`. -/
def gatekeeperRun (llmResult : Except String String)
    (parse : String → Option RawScores) (ctx : PipelineContext)
    (mem : MemoryState) (now : String) :
    Except String (GatekeeperOutput × MemoryState) :=
  match ctx.implementor with
  | none => .error "Gatekeeper requires Implementor output in context"
  | some impl =>
    let scorecard := llmScorecardModel llmResult parse impl ctx.guide
    let totalScore := scorecard.total
    let lessonsResult :=
      match ctx.learner with
      | none => Except.ok ([], [], mem)
      | some lrn => lessonLoop lrn.candidateLessons totalScore ctx.runId mem now
    match lessonsResult with
    | .error e => .error e
    | .ok (approved, rejected, mem1) =>
      let promote := decide ((20 : ℤ) ≤ totalScore)
      let currentLevel := (ctx.learner.map (fun l => l.currentLevel)).getD 0
      .ok ({ scorecard := scorecard,
             totalScore := totalScore,
             decision :=
               { approveLesson := decide (0 < approved.length),
                 promote := promote,
                 newLevel := if promote then some (min (currentLevel + 1) 3) else none,
                 allowClone := decide ((22 : ℤ) ≤ totalScore) },
             feedback := generateFeedback scorecard totalScore,
             improvements := generateImprovements scorecard ctx.safetyGuard,
             approvedLessons := approved,
             rejectedLessons := rejected,
             timestamp := now }, mem1)

/-- The Gatekeeper output on a context whose `learner` slot is empty —
the shape `gatekeeperRun` actually produces inside the pipeline, where
the Gatekeeper stage precedes the Learner stage: no lesson is approved
or rejected, and the proposed level is `min (0 + 1) 3 = 1`. -/
def gkNoLessons (llmResult : Except String String)
    (parse : String → Option RawScores) (impl : ImplementorOutput)
    (sgOpt : Option SafetyGuardOutput) (guideOpt : Option GuideOutput)
    (now : String) : GatekeeperOutput :=
  let scorecard := llmScorecardModel llmResult parse impl guideOpt
  let totalScore := scorecard.total
  { scorecard := scorecard,
    totalScore := totalScore,
    decision :=
      { approveLesson := false,
        promote := decide ((20 : ℤ) ≤ totalScore),
        newLevel := if decide ((20 : ℤ) ≤ totalScore) then some 1 else none,
        allowClone := decide ((22 : ℤ) ≤ totalScore) },
    feedback := generateFeedback scorecard totalScore,
    improvements := generateImprovements scorecard sgOpt,
    approvedLessons := [],
    rejectedLessons := [],
    timestamp := now }

/-! ## Schema validators — src/core/schemas/index.ts (zod) -/

/-- `PatternObserverOutputSchema`: at least one pattern, non-empty
texts, confidence within 0..1. -/
def validatePatternObserver (po : PatternObserverOutput) : Bool :=
  decide (1 ≤ po.patterns.length) &&
  po.patterns.all (fun pt => decide (1 ≤ pt.name.length) &&
    decide (1 ≤ pt.description.length) &&
    decide (0 ≤ pt.confidence) && decide (pt.confidence ≤ 1)) &&
  decide (1 ≤ po.suggestedApproach.length)

/-- `CruxFinderOutputSchema`: non-empty core problem, at least one
sub-problem. -/
def validateCruxFinder (c : CruxFinderOutput) : Bool :=
  decide (1 ≤ c.coreProblem.length) && decide (1 ≤ c.subProblems.length)

/-- `RetrieverOutputSchema` imposes only array types. -/
def validateRetriever (_r : RetrieverOutput) : Bool := true

/-- `GuideOutputSchema`: at least one step; positive step numbers and
non-empty step texts. -/
def validateGuide (g : GuideOutput) : Bool :=
  decide (1 ≤ g.plan.length) &&
  g.plan.all (fun s => decide (1 ≤ s.stepNumber) && decide (1 ≤ s.action.length) &&
    decide (1 ≤ s.rationale.length) && decide (1 ≤ s.expectedOutput.length))

/-- `PlannerOutputSchema`: at least one task; non-empty id, title,
description, steps and done-criteria. -/
def validatePlanner (p : PlannerOutput) : Bool :=
  decide (1 ≤ p.tasks.length) &&
  p.tasks.all (fun t => decide (1 ≤ t.id.length) && decide (1 ≤ t.title.length) &&
    decide (1 ≤ t.description.length) && decide (1 ≤ t.steps.length) &&
    decide (1 ≤ t.definitionOfDone.length))

/-- `SafetyGuardOutputSchema` imposes only field types. -/
def validateSafetyGuard (_s : SafetyGuardOutput) : Bool := true

/-- `ImplementorOutputSchema`: at least one action; non-empty
explanation. -/
def validateImplementor (i : ImplementorOutput) : Bool :=
  decide (1 ≤ i.actions.length) && decide (1 ≤ i.explanation.length)

/-- `ToolRunnerOutputSchema` imposes only field types. -/
def validateToolRunner (_t : ToolRunnerOutput) : Bool := true

/-- Each scorecard dimension is an integer within 0..5. -/
def scorecardOk (sc : Scorecard) : Bool :=
  decide (0 ≤ sc.correctness) && decide (sc.correctness ≤ 5) &&
  decide (0 ≤ sc.verification) && decide (sc.verification ≤ 5) &&
  decide (0 ≤ sc.safety) && decide (sc.safety ≤ 5) &&
  decide (0 ≤ sc.clarity) && decide (sc.clarity ≤ 5) &&
  decide (0 ≤ sc.autonomy) && decide (sc.autonomy ≤ 5)

/-- `GatekeeperOutputSchema`: scorecard in range, total within 0..25,
non-empty feedback, proposed level within 0..3. -/
def validateGatekeeper (g : GatekeeperOutput) : Bool :=
  scorecardOk g.scorecard && decide (0 ≤ g.totalScore) &&
  decide (g.totalScore ≤ 25) && decide (1 ≤ g.feedback.length) &&
  (match g.decision.newLevel with
   | some n => decide (n ≤ 3)
   | none => true)

/-- `LearnerOutputSchema`: non-empty reflection, level within 0..3,
well-formed candidate lessons. -/
def validateLearner (l : LearnerOutput) : Bool :=
  decide (1 ≤ l.reflection.length) && decide (l.currentLevel ≤ 3) &&
  l.candidateLessons.all (fun c => decide (1 ≤ c.title.length) &&
    decide (1 ≤ c.content.length) && decide (1 ≤ c.source.length))

/-! ## Orchestrator — src/core/pipeline/orchestrator.ts -/

/-- The eleven validated stage outputs of one successful pass through
the pipeline. -/
structure FullOutputs where
  observer : ObserverOutput
  patternObserver : PatternObserverOutput
  cruxFinder : CruxFinderOutput
  retriever : RetrieverOutput
  guide : GuideOutput
  planner : PlannerOutput
  safetyGuard : SafetyGuardOutput
  implementor : ImplementorOutput
  toolRunner : ToolRunnerOutput
  gatekeeper : GatekeeperOutput
  learner : LearnerOutput
deriving DecidableEq, Repr

/-- The per-run configuration: the provider oracle (response or
failure of each successive `generate` call), the JSON-parse oracle for
the score reply, the Implementor derivation oracles, the run id
(`uuidv4()` in the source), the timestamp, and the ToolRunner mode. -/
structure RunConfig where
  llm : Nat → Except String String
  parseScores : String → Option RawScores
  propose : PipelineContext → List ImplementorAction
  explanationOf : PipelineContext → String
  runId : String
  now : String
  toolRunnerMockMode : Bool := true

/-- The process-wide state owned by the Orchestrator: the carried-over
improvement notes, the Learner standalone permission level, the
permission policy object, and the memory store. -/
structure OrchestratorState where
  previousImprovements : List String
  learnerLevel : Nat
  policy : PermissionPolicy
  mem : MemoryState

/-- The eleven-stage body of `Orchestrator.run` up to (and including)
the Learner, with schema validation after every stage. A failure
carries the memory state at the failure point (the memory writes
already performed persist, as on disk). -/
def pipelineOutputs (cfg : RunConfig) (st : OrchestratorState) (request : String) :
    Except (String × MemoryState) (FullOutputs × MemoryState) :=
  match cfg.llm 0 with
  | .error e => .error (e, st.mem)
  | .ok r0 =>
    let obs := observerRun r0 request cfg.now
    if validateObserver obs then
      match cfg.llm 1 with
      | .error e => .error (e, st.mem)
      | .ok r1 =>
        let po := patternObserverRun r1 obs cfg.now
        if validatePatternObserver po then
          match cfg.llm 2 with
          | .error e => .error (e, st.mem)
          | .ok _r2 =>
            let crux := cruxFinderRun obs cfg.now
            if validateCruxFinder crux then
              match cfg.llm 3 with
              | .error e => .error (e, st.mem)
              | .ok _r3 =>
                let retr := retrieverRun crux po obs.keywords st.mem cfg.now
                if validateRetriever retr then
                  match cfg.llm 4 with
                  | .error e => .error (e, st.mem)
                  | .ok _r4 =>
                    let guide := guideRun crux (some retr)
                      (some st.previousImprovements) cfg.now
                    if validateGuide guide then
                      match cfg.llm 5 with
                      | .error e => .error (e, st.mem)
                      | .ok _r5 =>
                        let plan := plannerRun guide cfg.now
                        if validatePlanner plan then
                          match cfg.llm 6 with
                          | .error e => .error (e, st.mem)
                          | .ok _r6 =>
                            let sg := safetyGuardRun plan.tasks
                              guide.estimatedComplexity st.policy.currentLevel cfg.now
                            if validateSafetyGuard sg then
                              match cfg.llm 7 with
                              | .error e => .error (e, st.mem)
                              | .ok _r7 =>
                                let ctx8 : PipelineContext :=
                                  { runId := cfg.runId, request := request,
                                    previousImprovements := st.previousImprovements,
                                    observer := some obs, patternObserver := some po,
                                    cruxFinder := some crux, retriever := some retr,
                                    guide := some guide, planner := some plan,
                                    safetyGuard := some sg }
                                let impl := implementorRun (cfg.propose ctx8)
                                  (cfg.explanationOf ctx8) st.policy cfg.now
                                if validateImplementor impl then
                                  let tr := toolRunnerRun impl cfg.toolRunnerMockMode cfg.now
                                  if validateToolRunner tr then
                                    let ctx9 := { ctx8 with
                                      implementor := some impl,
                                      toolRunner := some tr }
                                    match gatekeeperRun (cfg.llm 8) cfg.parseScores
                                        ctx9 st.mem cfg.now with
                                    | .error e => .error (e, st.mem)
                                    | .ok (gk, mem1) =>
                                      if validateGatekeeper gk then
                                        match cfg.llm 9 with
                                        | .error e => .error (e, mem1)
                                        | .ok r9 =>
                                          let lrn := learnerRun r9 st.learnerLevel obs
                                            guide impl cfg.runId cfg.now
                                          if validateLearner lrn then
                                            .ok ({ observer := obs, patternObserver := po,
                                                   cruxFinder := crux, retriever := retr,
                                                   guide := guide, planner := plan,
                                                   safetyGuard := sg, implementor := impl,
                                                   toolRunner := tr, gatekeeper := gk,
                                                   learner := lrn }, mem1)
                                          else .error ("Schema validation failed: Learner output", mem1)
                                      else .error ("Schema validation failed: Gatekeeper output", mem1)
                                  else .error ("Schema validation failed: ToolRunner output", st.mem)
                                else .error ("Schema validation failed: Implementor output", st.mem)
                            else .error ("Schema validation failed: SafetyGuard output", st.mem)
                        else .error ("Schema validation failed: Planner output", st.mem)
                    else .error ("Schema validation failed: Guide output", st.mem)
                else .error ("Schema validation failed: Retriever output", st.mem)
            else .error ("Schema validation failed: CruxFinder output", st.mem)
        else .error ("Schema validation failed: PatternObserver output", st.mem)
    else .error ("Schema validation failed: Observer output", st.mem)

/-- Assemble the `RunArtifact` of a successful run. -/
def mkArtifact (cfg : RunConfig) (request : String) (o : FullOutputs) : RunArtifact :=
  { runId := cfg.runId, request := request,
    startedAt := cfg.now, completedAt := cfg.now,
    observer := o.observer, patternObserver := o.patternObserver,
    cruxFinder := o.cruxFinder, retriever := o.retriever, guide := o.guide,
    planner := o.planner, safetyGuard := o.safetyGuard,
    implementor := o.implementor, toolRunner := o.toolRunner,
    gatekeeper := o.gatekeeper, learner := o.learner,
    success := true, error := none }

/-- `RunArtifactSchema`: the artifact re-validates every component with
the same schemas, plus a non-empty request. (The uuid and datetime
format checks are modelled true.) -/
def validateRunArtifact (a : RunArtifact) : Bool :=
  decide (1 ≤ a.request.length) &&
  validateObserver a.observer && validatePatternObserver a.patternObserver &&
  validateCruxFinder a.cruxFinder && validateRetriever a.retriever &&
  validateGuide a.guide && validatePlanner a.planner &&
  validateSafetyGuard a.safetyGuard && validateImplementor a.implementor &&
  validateToolRunner a.toolRunner && validateGatekeeper a.gatekeeper &&
  validateLearner a.learner

/-- `Orchestrator.run`. On any stage failure the run throws
"Pipeline run <id> failed: <cause>" and no feedback loop runs. On
success: the promotion feedback loop updates the Learner standalone
level (`setLevel` clamps into 0..3), the improvement feedback loop
stores the Gatekeeper notes when non-empty, then the artifact is
validated as a whole and both the artifact and the derived portfolio
entry are persisted. -/
def orchestratorRun (cfg : RunConfig) (st : OrchestratorState) (request : String) :
    Except String RunArtifact × OrchestratorState :=
  match pipelineOutputs cfg st request with
  | .error em =>
    (.error ("Pipeline run " ++ cfg.runId ++ " failed: " ++ em.1),
     { st with mem := em.2 })
  | .ok om =>
    let gk := om.1.gatekeeper
    let lvl1 :=
      if gk.decision.promote && gk.decision.newLevel.isSome then
        min 3 (gk.decision.newLevel.getD 0)
      else st.learnerLevel
    let imp1 :=
      if 0 < gk.improvements.length then gk.improvements
      else st.previousImprovements
    let artifact := mkArtifact cfg request om.1
    let st1 : OrchestratorState :=
      { st with mem := om.2, learnerLevel := lvl1, previousImprovements := imp1 }
    if validateRunArtifact artifact then
      let artifactPath := "logs/" ++ cfg.runId ++ ".json"
      let entry : PortfolioEntry :=
        { runId := cfg.runId, request := request,
          completedAt := artifact.completedAt, scorecard := gk.scorecard,
          totalScore := gk.totalScore, artifactPath := artifactPath }
      (.ok artifact,
       { st1 with mem := { st1.mem with
          artifacts := st1.mem.artifacts ++ [artifact],
          portfolio := st1.mem.portfolio ++ [entry] } })
    else
      (.error ("Pipeline run " ++ cfg.runId ++
        " failed: Schema validation failed: run artifact"), st1)

/-- A sequence of runs, each threading the process-wide state. -/
def runMany (cfgs : List (RunConfig × String)) (st : OrchestratorState) :
    OrchestratorState :=
  cfgs.foldl (fun s q => (orchestratorRun q.1 s q.2).2) st

/-! ## Concrete fixtures used by the claim theorems -/

/-- A destructive read action inside the default workspace. -/
def destructiveRead : ImplementorAction :=
  { type := .readFile, path := some "/workspace/notes.txt",
    requiresApproval := false, isDestructive := true }

/-- A destructive file-creation action inside the default workspace. -/
def destructiveCreate : ImplementorAction :=
  { type := .createFile, path := some "/workspace/a.ts", content := some "x",
    requiresApproval := false, isDestructive := true }

/-- A non-destructive read action. -/
def benignRead : ImplementorAction :=
  { type := .readFile, path := some "/workspace/notes.txt",
    requiresApproval := false, isDestructive := false }

/-- A harmless planner task: no dangerous pattern, no logging of
secrets, no system path. -/
def safeDemoTask : PlannerTask :=
  { id := "task-001", title := "Greet",
    description := "Step 1: say hello. Rationale: be polite",
    owner := .implementor,
    steps := ["Analyse: be polite", "Execute: say hello", "Verify: greeting done"],
    definitionOfDone := ["greeting done", "No errors or warnings"],
    dependencies := [] }

/-- A planner task containing the dangerous plan step of the C8
scenario. -/
def dangerDemoTask : PlannerTask :=
  { id := "task-002", title := "Cleanup",
    description := "Step 2: cleanup temp data",
    owner := .implementor,
    steps := ["rm -rf /tmp/data"],
    definitionOfDone := ["cleaned"],
    dependencies := [] }

/-- A provider oracle that always answers. -/
def okLLM : Nat → Except String String := fun _ => .ok "stub reasoning"

/-- A provider oracle whose very first call fails. -/
def failLLM : Nat → Except String String := fun _ => .error "LLM provider unavailable"

/-- A parse oracle giving the fixed scores 5, 5, 4, 4, 3 — total 21. -/
def parse21 : String → Option RawScores := fun _ =>
  some { correctness := some 5, verification := some 5, safety := some 4,
         clarity := some 4, autonomy := some 3 }

/-- A parse oracle giving all fives — total 25, so no improvement
notes are generated. -/
def parse25 : String → Option RawScores := fun _ =>
  some { correctness := some 5, verification := some 5, safety := some 5,
         clarity := some 5, autonomy := some 5 }

/-- A proposal oracle: one benign file creation inside the workspace
and one destructive command. The destructive one is blocked at the
default policy level 1, so the Learner proposes two candidate
lessons. -/
def proposeWithBlocked : PipelineContext → List ImplementorAction := fun _ =>
  [{ type := .createFile, path := some "/workspace/hello.ts", content := some "x",
     requiresApproval := false, isDestructive := false },
   { type := .runCommand, command := some "drop table users",
     requiresApproval := false, isDestructive := true }]

/-- A fixed explanation oracle. -/
def demoExplanation : PipelineContext → String := fun _ =>
  "Created the hello world function and explained it in detail."

/-- A fresh orchestrator state: no carried-over improvements, Learner
standalone level 0 (its constructor default), the default policy,
empty memory. -/
def demoState : OrchestratorState :=
  { previousImprovements := [], learnerLevel := 0,
    policy := createDefaultPolicy "/workspace", mem := emptyMemory }

/-- A run configuration whose Evaluation scores total 21. -/
def demoCfg21 : RunConfig :=
  { llm := okLLM, parseScores := parse21, propose := proposeWithBlocked,
    explanationOf := demoExplanation, runId := "run-001", now := "t0" }

/-- A run configuration whose Evaluation scores total 25 (producing no
improvement notes). -/
def demoCfg25 : RunConfig :=
  { llm := okLLM, parseScores := parse25, propose := proposeWithBlocked,
    explanationOf := demoExplanation, runId := "run-002", now := "t1" }

/-- A run configuration whose provider fails on the first call. -/
def demoCfgFail : RunConfig :=
  { llm := failLLM, parseScores := parse21, propose := proposeWithBlocked,
    explanationOf := demoExplanation, runId := "run-003", now := "t2" }

/-- The demo request of the repository test suite. -/
def demoRequest : String := "Create a hello world function"

/-- An Implementor output whose explanation is exactly 20 characters
long — the boundary case of the clarity rule. -/
def explanationTwenty : ImplementorOutput :=
  { actions := [benignRead], explanation := "12345678901234567890",
    filesCreated := [], filesModified := [], commandsRun := [],
    blocked := [], timestamp := "t0" }

/-- A one-step guide plan. -/
def guideOneStep : GuideOutput :=
  { plan := [⟨1, "Implement hello component",
      "Addresses sub-problem: Implement hello component",
      "Completed: Implement hello component"⟩],
    estimatedComplexity := .low, warnings := [],
    bestPractices := ["Follow established project conventions"],
    timestamp := "t0" }

/-- A state carrying one improvement note from an earlier run. -/
def stOld : OrchestratorState :=
  { demoState with previousImprovements := ["old note"] }

/-! # Theorems -/

/-! ## Permission evaluator lemmas -/

/-- Every result the command-check block returns is a refusal. -/
theorem commandCheck_allowed_false (a : ImplementorAction) (p : PermissionPolicy)
    (r : PermissionCheckResult) (h : commandCheck a p = some r) : r.allowed = false := by
  unfold commandCheck at h
  split at h
  · split at h
    · exact Option.noConfusion h
    · split at h
      · exact Option.noConfusion h
      · split at h
        · cases h; rfl
        · split at h
          · cases h; rfl
          · exact Option.noConfusion h
  · exact Option.noConfusion h

/-- Every result the path-check block returns is a refusal. -/
theorem pathCheck_allowed_false (a : ImplementorAction) (p : PermissionPolicy)
    (r : PermissionCheckResult) (h : pathCheck a p = some r) : r.allowed = false := by
  unfold pathCheck at h
  split at h
  · split at h
    · exact Option.noConfusion h
    · split at h
      · exact Option.noConfusion h
      · split at h
        · exact Option.noConfusion h
        · cases h; rfl
  · exact Option.noConfusion h

/-- The path check never reads the permission level. -/
theorem pathCheck_withLevel (a : ImplementorAction) (p : PermissionPolicy) (l l2 : Nat) :
    pathCheck a (withLevel p l) = pathCheck a (withLevel p l2) := rfl

/-- The command check only reads the level through the `level = 1` git
clause, so it is the same function at any two levels other than 1. -/
theorem commandCheck_level_ne_one (a : ImplementorAction) (p : PermissionPolicy)
    {l l2 : Nat} (hl : l ≠ 1) (hl2 : l2 ≠ 1) :
    commandCheck a (withLevel p l) = commandCheck a (withLevel p l2) := by
  unfold commandCheck withLevel
  simp only
  split
  · cases hc : a.command with
    | none => rfl
    | some cmd =>
      simp only
      split
      · rfl
      · cases hf : List.find? (fun b => containsSub (jsToLower cmd) (jsToLower b))
            p.blockedCommands with
        | some b => simp [hf]
        | none => simp [hf, hl, hl2]
  · rfl

/-- A command that passes the command check at level 1 (where the git
clause is live) passes it at every level. -/
theorem commandCheck_none_any_level (a : ImplementorAction) (p : PermissionPolicy)
    (h : commandCheck a (withLevel p 1) = none) (l : Nat) :
    commandCheck a (withLevel p l) = none := by
  by_cases ht : a.type = .runCommand
  · cases hc : a.command with
    | none => unfold commandCheck; simp [ht, hc]
    | some cmd =>
      by_cases he : cmd = ""
      · unfold commandCheck; simp [ht, hc, he]
      · cases hf : List.find? (fun b => containsSub (jsToLower cmd) (jsToLower b))
            p.blockedCommands with
        | some b =>
          exfalso
          unfold commandCheck withLevel at h
          simp [ht, hc, he, hf] at h
        | none =>
          unfold commandCheck withLevel at h
          simp [ht, hc, he, hf] at h
          unfold commandCheck withLevel
          simp [ht, hc, he, hf, h]
  · unfold commandCheck; simp [ht]

/-- A non-destructive read action is allowed at every level. -/
theorem readFile_allowed (a : ImplementorAction) (p : PermissionPolicy)
    (ht : a.type = .readFile) (hd : a.isDestructive = false) :
    (checkPermission a p).allowed = true := by
  unfold checkPermission
  have hcc : commandCheck a p = none := by
    unfold commandCheck; simp [ht]
  have hpc : pathCheck a p = none := by
    unfold pathCheck; simp [ht]
  rcases Nat.eq_zero_or_pos p.currentLevel with h0 | h0
  · simp [h0, ht]
  · rcases eq_or_lt_of_le h0 with h1 | h1
    · simp [← h1, hd, hcc, hpc, ht]
    · have h2 : 2 ≤ p.currentLevel := h1
      have hne0 : p.currentLevel ≠ 0 := by omega
      have hne1 : p.currentLevel ≠ 1 := by omega
      simp [hne0, hne1, hd, hcc, hpc, h2]

/-- At a level of at least 1, a non-destructive action is allowed
exactly when both the command check and the path check fall through. -/
theorem allowed_iff_checks_none (a : ImplementorAction) (p : PermissionPolicy)
    (hl : 1 ≤ p.currentLevel) (hd : a.isDestructive = false) :
    (checkPermission a p).allowed = true ↔
      commandCheck a p = none ∧ pathCheck a p = none := by
  have hne0 : p.currentLevel ≠ 0 := by omega
  unfold checkPermission
  rw [if_neg hne0, if_neg (by simp [hd])]
  cases hcc : commandCheck a p with
  | some r =>
    simp only [hcc]
    have := commandCheck_allowed_false a p r hcc
    simp [this]
  | none =>
    cases hpc : pathCheck a p with
    | some r =>
      simp only [hcc, hpc]
      have := pathCheck_allowed_false a p r hpc
      simp [this]
    | none =>
      simp only [hcc, hpc]
      rcases eq_or_lt_of_le hl with h1 | h1
      · cases h : a.type <;> simp [← h1, h]
      · have h2 : 2 ≤ p.currentLevel := h1
        have hne1 : p.currentLevel ≠ 1 := by omega
        simp [hne1, h2]

/-! ## Keyword extraction lemmas -/

/-- Elements of the deduplicated list come from the input list. -/
theorem dedupFirstAux_mem {seen l : List String} {x : String}
    (h : x ∈ dedupFirstAux seen l) : x ∈ l := by
  induction l generalizing seen with
  | nil => simp [dedupFirstAux] at h
  | cons y ys ih =>
    unfold dedupFirstAux at h
    split at h
    · exact List.mem_cons_of_mem _ (ih h)
    · rcases List.mem_cons.mp h with h1 | h1
      · exact h1 ▸ List.mem_cons_self _ _
      · exact List.mem_cons_of_mem _ (ih h1)

/-- Elements of the deduplicated list were not previously seen. -/
theorem dedupFirstAux_not_mem_seen {seen l : List String} {x : String}
    (h : x ∈ dedupFirstAux seen l) : x ∉ seen := by
  induction l generalizing seen with
  | nil => simp [dedupFirstAux] at h
  | cons y ys ih =>
    unfold dedupFirstAux at h
    split at h
    · exact ih h
    · next hy =>
      rcases List.mem_cons.mp h with h1 | h1
      · exact h1 ▸ hy
      · intro hx
        exact ih h1 (List.mem_cons_of_mem _ hx)

/-- First-occurrence deduplication produces a duplicate-free list. -/
theorem dedupFirstAux_nodup (l : List String) :
    ∀ seen, (dedupFirstAux seen l).Nodup := by
  induction l with
  | nil => intro seen; simp [dedupFirstAux]
  | cons y ys ih =>
    intro seen
    unfold dedupFirstAux
    split
    · exact ih seen
    · refine List.nodup_cons.mpr ⟨?_, ih (y :: seen)⟩
      intro hy
      exact dedupFirstAux_not_mem_seen hy (List.mem_cons_self _ _)

/-- Every character of every token of the whitespace splitter satisfies
whatever held of the input characters, and is not whitespace. -/
theorem splitWsAux_chars (P : Char → Prop) :
    ∀ (l acc : List Char), (∀ c ∈ l, P c) →
      (∀ c ∈ acc, P c ∧ isWsChar c = false) →
      ∀ t ∈ splitWsAux l acc, ∀ c ∈ t, P c ∧ isWsChar c = false := by
  intro l
  induction l with
  | nil =>
    intro acc _ hacc t ht c hc
    unfold splitWsAux at ht
    split at ht
    · simp at ht
    · simp only [List.mem_singleton] at ht
      subst ht
      exact hacc c (List.mem_reverse.mp hc)
  | cons d ds ih =>
    intro acc hl hacc t ht c hc
    unfold splitWsAux at ht
    split at ht
    · split at ht
      · exact ih [] (fun x hx => hl x (List.mem_cons_of_mem _ hx)) (by simp) t ht c hc
      · rcases List.mem_cons.mp ht with h1 | h1
        · subst h1
          exact hacc c (List.mem_reverse.mp hc)
        · exact ih [] (fun x hx => hl x (List.mem_cons_of_mem _ hx)) (by simp) t h1 c hc
    · next hd =>
      refine ih (d :: acc) (fun x hx => hl x (List.mem_cons_of_mem _ hx)) ?_ t ht c hc
      intro x hx
      rcases List.mem_cons.mp hx with h1 | h1
      · subst h1
        exact ⟨hl x (List.mem_cons_self _ _), by simpa using hd⟩
      · exact hacc x h1

/-- A kept, non-whitespace character is a lowercase letter or digit. -/
theorem keep_not_ws_lowerAlnum (c : Char) (h1 : keepChar c = true)
    (h2 : isWsChar c = false) : isLowerAlnum c = true := by
  simp only [keepChar, isWsChar, decide_eq_true_eq] at h1
  simp only [isWsChar, decide_eq_false_iff_not] at h2
  simp only [isLowerAlnum, decide_eq_true_eq]
  tauto

/-! ## Substring lemmas -/

/-- String concatenation concatenates the character lists. -/
theorem string_data_append (a b : String) : (a ++ b).data = a.data ++ b.data := rfl

/-- A substring occurrence survives prepending more text. -/
theorem occursIn_append_right (n x y : List Char) (h : occursIn n y = true) :
    occursIn n (x ++ y) = true := by
  induction x with
  | nil => exact h
  | cons c cs ih =>
    show (n.isPrefixOf (c :: (cs ++ y)) || occursIn n (cs ++ y)) = true
    rw [ih]
    exact Bool.or_true _

/-! ## Claim C9 — Observer keyword extraction -/

/-- C9 (code bug). For every request text the Observer keyword list is
capped at 10 entries, duplicate-free, and every keyword is a lowercase
alphanumeric token longer than 2 characters that is not a stop word.
But the list is not always non-empty, as the claim and the zod schema
of the Observer (`keywords: z.array(z.string()).min(1)`) require: the
request "to do it" consists only of stop words, yields an empty keyword
list, and the Observer output therefore fails its own schema check,
aborting the run. -/
theorem claim_C9_theorem :
    (∀ t : String,
      (extractKeywords t).length ≤ 10 ∧
      (extractKeywords t).Nodup ∧
      (extractKeywords t).all (fun w =>
        decide (2 < w.length) && !(stopWords.contains w) &&
        w.data.all isLowerAlnum) = true) ∧
    extractKeywords "to do it" = [] ∧
    validateObserver (observerRun "stub reasoning" "to do it" "t0") = false := by
  refine ⟨?_, by decide, by decide⟩
  intro t
  refine ⟨List.length_take_le _ _, ?_, ?_⟩
  · exact List.Nodup.sublist (List.take_sublist _ _) (dedupFirstAux_nodup _ [])
  · apply List.all_eq_true.mpr
    intro w hw
    have hw2 : w ∈ dedupFirstAux [] (((splitWsAux ((jsToLower t).data.filter keepChar) []).map
        String.mk).filter (fun w => decide (2 < w.length) && !(stopWords.contains w))) :=
      List.take_subset _ _ hw
    have hpred := List.of_mem_filter (dedupFirstAux_mem hw2)
    have hw4 := List.mem_of_mem_filter (dedupFirstAux_mem hw2)
    obtain ⟨tok, htok, hmk⟩ := List.mem_map.mp hw4
    subst hmk
    simp only [Bool.and_eq_true] at hpred ⊢
    refine ⟨hpred, ?_⟩
    apply List.all_eq_true.mpr
    intro c hc
    have hres := splitWsAux_chars (fun ch => keepChar ch = true)
      ((jsToLower t).data.filter keepChar) []
      (fun ch h => List.of_mem_filter h) (by simp) tok htok c hc
    exact keep_not_ws_lowerAlnum c hres.1 hres.2

/-! ## Claim C2 — permission monotonicity -/

/-- C2 counterexample. The claim states: for every fixed action, raising
the permission level never turns an allowed result into a blocked one,
except for the destructive-action rule, which blocks at every level.
This is false: a destructive `readFile` action is allowed at level 0
(the read-only rule fires before the destructive rule) and blocked at
level 1, so raising the level turns allowed into blocked, and the
destructive rule does not block at every level. -/
theorem claim_C2_counterexample :
    ¬ (∀ (a : ImplementorAction) (p : PermissionPolicy) (l1 l2 : Nat), l1 ≤ l2 →
        (((checkPermission a (withLevel p l1)).allowed = true →
          (checkPermission a (withLevel p l2)).allowed = true) ∨
         (a.isDestructive = true ∧
          ∀ l : Nat, (checkPermission a (withLevel p l)).allowed = false))) := by
  intro h
  rcases h destructiveRead (createDefaultPolicy "/workspace") 0 1 (by omega) with h1 | h2
  · exact absurd (h1 (by decide)) (by decide)
  · exact absurd (h2.2 0) (by decide)

/-- C2 (amended): for a fixed non-destructive action, raising the
permission level never turns an allowed result into a blocked one; a
destructive action is blocked at every level of at least 1 (at level 0
the read-only rule takes precedence, allowing destructive reads). -/
theorem claim_C2_theorem (a : ImplementorAction) (p : PermissionPolicy)
    (l1 l2 : Nat) (h12 : l1 ≤ l2) :
    (a.isDestructive = false →
      (checkPermission a (withLevel p l1)).allowed = true →
      (checkPermission a (withLevel p l2)).allowed = true) ∧
    (a.isDestructive = true → 1 ≤ l1 →
      (checkPermission a (withLevel p l1)).allowed = false) := by
  constructor
  · intro hd hall
    rcases Nat.eq_zero_or_pos l1 with h0 | hpos
    · subst h0
      have ht : a.type = .readFile := by
        by_contra hne
        unfold checkPermission withLevel at hall
        simp [hne] at hall
      exact readFile_allowed a _ ht hd
    · have hl2 : 1 ≤ l2 := le_trans hpos h12
      have hlv1 : (withLevel p l1).currentLevel = l1 := rfl
      have hlv2 : (withLevel p l2).currentLevel = l2 := rfl
      rw [allowed_iff_checks_none _ _ (by rw [hlv1]; exact hpos) hd] at hall
      rw [allowed_iff_checks_none _ _ (by rw [hlv2]; exact hl2) hd]
      obtain ⟨hcc, hpc⟩ := hall
      constructor
      · rcases eq_or_lt_of_le hpos with h1 | h1
        · have h1e : l1 = 1 := by omega
          exact commandCheck_none_any_level a p (h1e ▸ hcc) l2
        · have hne1 : l1 ≠ 1 := by omega
          have hne2 : l2 ≠ 1 := by omega
          rw [← commandCheck_level_ne_one a p hne1 hne2]
          exact hcc
      · rw [pathCheck_withLevel a p l2 l1]
        exact hpc
  · intro hd h1
    have hne0 : (withLevel p l1).currentLevel ≠ 0 := by
      show l1 ≠ 0
      omega
    unfold checkPermission
    rw [if_neg hne0, if_pos hd]

/-- Witness for C2: both conjuncts of the amended statement applied at
concrete inputs. -/
theorem claim_C2_witness :
    (checkPermission benignRead (withLevel (createDefaultPolicy "/workspace") 3)).allowed = true ∧
    (checkPermission destructiveCreate (withLevel (createDefaultPolicy "/workspace") 1)).allowed = false := by
  constructor
  · exact (claim_C2_theorem benignRead (createDefaultPolicy "/workspace") 0 3
      (by omega)).1 rfl (by decide)
  · exact (claim_C2_theorem destructiveCreate (createDefaultPolicy "/workspace") 1 3
      (by omega)).2 rfl (by omega)

/-! ## Claim C6 — the destructive-action rule -/

/-- C6 counterexample. The claim states: for every destructive action
and every level, the evaluator returns blocked with approval required
and the reason "destructive action requires approval". This is false at
level 0: a destructive `createFile` is refused by the read-only rule
with `requiresApproval = false` and the L0 reason; moreover the code
reason string at higher levels differs from the quoted one. -/
theorem claim_C6_counterexample :
    destructiveCreate.isDestructive = true ∧
    (checkPermission destructiveCreate (withLevel (createDefaultPolicy "/workspace") 0)).requiresApproval = false ∧
    (checkPermission destructiveCreate (withLevel (createDefaultPolicy "/workspace") 2)).reason ≠
      "destructive action requires approval" := by
  refine ⟨rfl, rfl, ?_⟩
  decide

/-- C6 (amended): at every level of at least 1, a destructive action is
blocked with `requiresApproval = true` and reason "Destructive action
blocked by default – requires explicit approval"; at level 0 the
read-only rule takes precedence: the result carries
`requiresApproval = false`, and it is allowed exactly for read actions. -/
theorem claim_C6_theorem (a : ImplementorAction) (p : PermissionPolicy)
    (hd : a.isDestructive = true) :
    (1 ≤ p.currentLevel →
      checkPermission a p =
        { allowed := false,
          reason := "Destructive action blocked by default – requires explicit approval",
          requiresApproval := true }) ∧
    (p.currentLevel = 0 →
      (checkPermission a p).requiresApproval = false ∧
      ((checkPermission a p).allowed = true ↔ a.type = .readFile)) := by
  constructor
  · intro h1
    have hne0 : p.currentLevel ≠ 0 := by omega
    unfold checkPermission
    rw [if_neg hne0, if_pos hd]
  · intro h0
    unfold checkPermission
    rw [if_pos h0]
    by_cases ht : a.type = .readFile
    · simp [ht]
    · simp [ht]

/-- Witness for C6: both conjuncts applied at concrete inputs. -/
theorem claim_C6_witness :
    (checkPermission destructiveCreate (withLevel (createDefaultPolicy "/workspace") 2)).requiresApproval = true ∧
    ((checkPermission destructiveRead (withLevel (createDefaultPolicy "/workspace") 0)).allowed = true ↔
      destructiveRead.type = ActionType.readFile) := by
  constructor
  · rw [(claim_C6_theorem destructiveCreate (withLevel (createDefaultPolicy "/workspace") 2)
      rfl).1 (by decide)]
  · exact ((claim_C6_theorem destructiveRead (withLevel (createDefaultPolicy "/workspace") 0)
      rfl).2 rfl).2

/-! ## Pipeline dissection lemmas -/

/-- Every carried-over improvement note (capped at 3) appears in the
best practices the Guide builds, prefixed "Improvement: ". -/
theorem guide_bestPractices_injection (crux : CruxFinderOutput)
    (retr : RetrieverOutput) (prev : List String) (now : String) :
    ((prev.take 3).all (fun x =>
      (guideRun crux (some retr) (some prev) now).bestPractices.contains
        ("Improvement: " ++ x))) = true := by
  cases htake : prev.take 3 with
  | nil => rfl
  | cons x xs =>
    apply List.all_eq_true.mpr
    intro y hy
    have hmem : ("Improvement: " ++ y) ∈
        (prev.take 3).map (fun i => "Improvement: " ++ i) :=
      List.mem_map.mpr ⟨y, htake ▸ hy, rfl⟩
    have hbp : (guideRun crux (some retr) (some prev) now).bestPractices =
        (retr.lessons.take 3).map (fun l => "Lesson: " ++ l) ++
        (prev.take 3).map (fun i => "Improvement: " ++ i) := by
      show (if _ = 0 then _ else _) = _
      rw [if_neg]
      intro hlen
      simp only [List.length_append, List.length_map, htake, List.length_cons] at hlen
      omega
    rw [hbp]
    have : ("Improvement: " ++ y) ∈
        (retr.lessons.take 3).map (fun l => "Lesson: " ++ l) ++
        (prev.take 3).map (fun i => "Improvement: " ++ i) :=
      List.mem_append_right _ hmem
    exact List.elem_eq_true_of_mem this

/-- A validated Observer output forces a non-empty request: the empty
request has no keywords, which the schema rejects. -/
theorem request_len_of_validateObserver (r0 request now : String)
    (h : validateObserver (observerRun r0 request now) = true) :
    1 ≤ request.length := by
  by_contra hc
  have hreq : request = "" := by
    cases request with
    | mk data =>
      cases data with
      | nil => rfl
      | cons c cs => exact absurd (by simp [String.length]) hc
  subst hreq
  unfold validateObserver observerRun at h
  rw [show extractKeywords "" = [] from rfl] at h
  simp at h

/-- Dissection of one pipeline pass. A failing pass carries exactly
the memory it started with (the Gatekeeper lesson loop — the only
mid-run memory writer — never fires, because the Learner slot of the
context is still empty when the Gatekeeper runs). A successful pass
additionally yields a schema-valid artifact and a Gatekeeper output
with no lesson activity, threshold-exact decisions, and the proposed
level stuck at 1. -/
theorem pipelineOutputs_spec (cfg : RunConfig) (st : OrchestratorState)
    (request : String) (res : Except (String × MemoryState) (FullOutputs × MemoryState))
    (h : pipelineOutputs cfg st request = res) :
    (∀ em, res = .error em → em.2 = st.mem) ∧
    (∀ om, res = .ok om →
      om.2 = st.mem ∧
      validateRunArtifact (mkArtifact cfg request om.1) = true ∧
      om.1.gatekeeper.approvedLessons = [] ∧
      om.1.gatekeeper.rejectedLessons = [] ∧
      om.1.gatekeeper.totalScore = om.1.gatekeeper.scorecard.total ∧
      om.1.gatekeeper.decision.promote = decide ((20 : ℤ) ≤ om.1.gatekeeper.totalScore) ∧
      om.1.gatekeeper.decision.allowClone = decide ((22 : ℤ) ≤ om.1.gatekeeper.totalScore) ∧
      om.1.gatekeeper.decision.newLevel =
        (if (20 : ℤ) ≤ om.1.gatekeeper.totalScore then some 1 else none) ∧
      ((st.previousImprovements.take 3).all (fun x =>
        om.1.guide.bestPractices.contains ("Improvement: " ++ x))) = true) := by
  unfold pipelineOutputs at h
  cases h0 : cfg.llm 0 with
  | error e =>
    rw [h0] at h
    subst h
    exact ⟨fun em hem => by cases hem; rfl, fun om hom => by cases hom⟩
  | ok r0 =>
  rw [h0] at h
  set obs := observerRun r0 request cfg.now with hobs
  by_cases hv1 : validateObserver obs = true
  case neg =>
    simp only [if_neg hv1] at h
    subst h
    exact ⟨fun em hem => by cases hem; rfl, fun om hom => by cases hom⟩
  simp only [if_pos hv1] at h
  cases h1 : cfg.llm 1 with
  | error e =>
    rw [h1] at h
    subst h
    exact ⟨fun em hem => by cases hem; rfl, fun om hom => by cases hom⟩
  | ok r1 =>
  rw [h1] at h
  set po := patternObserverRun r1 obs cfg.now with hpo
  by_cases hv2 : validatePatternObserver po = true
  case neg =>
    simp only [if_neg hv2] at h
    subst h
    exact ⟨fun em hem => by cases hem; rfl, fun om hom => by cases hom⟩
  simp only [if_pos hv2] at h
  cases h2 : cfg.llm 2 with
  | error e =>
    rw [h2] at h
    subst h
    exact ⟨fun em hem => by cases hem; rfl, fun om hom => by cases hom⟩
  | ok r2 =>
  rw [h2] at h
  set crux := cruxFinderRun obs cfg.now with hcrux
  by_cases hv3 : validateCruxFinder crux = true
  case neg =>
    simp only [if_neg hv3] at h
    subst h
    exact ⟨fun em hem => by cases hem; rfl, fun om hom => by cases hom⟩
  simp only [if_pos hv3] at h
  cases h3 : cfg.llm 3 with
  | error e =>
    rw [h3] at h
    subst h
    exact ⟨fun em hem => by cases hem; rfl, fun om hom => by cases hom⟩
  | ok r3 =>
  rw [h3] at h
  set retr := retrieverRun crux po obs.keywords st.mem cfg.now with hretr
  have hv4 : validateRetriever retr = true := rfl
  simp only [if_pos hv4] at h
  cases h4 : cfg.llm 4 with
  | error e =>
    rw [h4] at h
    subst h
    exact ⟨fun em hem => by cases hem; rfl, fun om hom => by cases hom⟩
  | ok r4 =>
  rw [h4] at h
  set guide := guideRun crux (some retr) (some st.previousImprovements) cfg.now with hguide
  by_cases hv5 : validateGuide guide = true
  case neg =>
    simp only [if_neg hv5] at h
    subst h
    exact ⟨fun em hem => by cases hem; rfl, fun om hom => by cases hom⟩
  simp only [if_pos hv5] at h
  cases h5 : cfg.llm 5 with
  | error e =>
    rw [h5] at h
    subst h
    exact ⟨fun em hem => by cases hem; rfl, fun om hom => by cases hom⟩
  | ok r5 =>
  rw [h5] at h
  set plan := plannerRun guide cfg.now with hplan
  by_cases hv6 : validatePlanner plan = true
  case neg =>
    simp only [if_neg hv6] at h
    subst h
    exact ⟨fun em hem => by cases hem; rfl, fun om hom => by cases hom⟩
  simp only [if_pos hv6] at h
  cases h6 : cfg.llm 6 with
  | error e =>
    rw [h6] at h
    subst h
    exact ⟨fun em hem => by cases hem; rfl, fun om hom => by cases hom⟩
  | ok r6 =>
  rw [h6] at h
  set sg := safetyGuardRun plan.tasks guide.estimatedComplexity st.policy.currentLevel cfg.now with hsg
  have hv7 : validateSafetyGuard sg = true := rfl
  simp only [if_pos hv7] at h
  cases h7 : cfg.llm 7 with
  | error e =>
    rw [h7] at h
    subst h
    exact ⟨fun em hem => by cases hem; rfl, fun om hom => by cases hom⟩
  | ok r7 =>
  rw [h7] at h
  set ctx8 : PipelineContext :=
    { runId := cfg.runId, request := request,
      previousImprovements := st.previousImprovements,
      observer := some obs, patternObserver := some po,
      cruxFinder := some crux, retriever := some retr,
      guide := some guide, planner := some plan,
      safetyGuard := some sg } with hctx8
  set impl := implementorRun (cfg.propose ctx8) (cfg.explanationOf ctx8) st.policy cfg.now with himpl
  by_cases hv8 : validateImplementor impl = true
  case neg =>
    simp only [if_neg hv8] at h
    subst h
    exact ⟨fun em hem => by cases hem; rfl, fun om hom => by cases hom⟩
  simp only [if_pos hv8] at h
  set tr := toolRunnerRun impl cfg.toolRunnerMockMode cfg.now with htr
  have hv9 : validateToolRunner tr = true := rfl
  simp only [if_pos hv9] at h
  have hgkeq : gatekeeperRun (cfg.llm 8) cfg.parseScores
      { ctx8 with implementor := some impl, toolRunner := some tr }
      st.mem cfg.now =
      .ok (gkNoLessons (cfg.llm 8) cfg.parseScores impl (some sg) (some guide) cfg.now,
           st.mem) := rfl
  simp only [hgkeq] at h
  set gk := gkNoLessons (cfg.llm 8) cfg.parseScores impl (some sg) (some guide) cfg.now
    with hgk
  by_cases hvg : validateGatekeeper gk = true
  case neg =>
    simp only [if_neg hvg] at h
    subst h
    exact ⟨fun em hem => by cases hem; rfl, fun om hom => by cases hom⟩
  simp only [if_pos hvg] at h
  cases h9 : cfg.llm 9 with
  | error e =>
    rw [h9] at h
    subst h
    exact ⟨fun em hem => by cases hem; rfl, fun om hom => by cases hom⟩
  | ok r9 =>
  rw [h9] at h
  set lrn := learnerRun r9 st.learnerLevel obs guide impl cfg.runId cfg.now with hlrn
  by_cases hvl : validateLearner lrn = true
  case neg =>
    simp only [if_neg hvl] at h
    subst h
    exact ⟨fun em hem => by cases hem; rfl, fun om hom => by cases hom⟩
  simp only [if_pos hvl] at h
  subst h
  refine ⟨fun em hem => Except.noConfusion hem, fun om hom => ?_⟩
  cases hom
  refine ⟨rfl, ?_, rfl, rfl, rfl, rfl, rfl, ?_, ?_⟩
  · simp only [validateRunArtifact, mkArtifact, Bool.and_eq_true]
    exact ⟨⟨⟨⟨⟨⟨⟨⟨⟨⟨⟨decide_eq_true
      (request_len_of_validateObserver r0 request cfg.now hv1),
      hv1⟩, hv2⟩, hv3⟩, hv4⟩, hv5⟩, hv6⟩, hv7⟩, hv8⟩, hv9⟩, hvg⟩, hvl⟩
  · show gk.decision.newLevel = _
    rw [hgk]
    by_cases hp : (20 : ℤ) ≤
        (llmScorecardModel (cfg.llm 8) cfg.parseScores impl (some guide)).total
    · simp [gkNoLessons, hp]
    · simp [gkNoLessons, hp]
  · exact guide_bestPractices_injection crux retr st.previousImprovements cfg.now

/-! ## Claim C7 — Gatekeeper fallback scoring -/

/-- The integer computation of `jsRound` is the rounding
`⌊q + 1/2⌋` of JavaScript `Math.round`. -/
theorem jsRound_eq_floor (q : ℚ) : jsRound q = ⌊q + 1/2⌋ := by
  have hd : ((q.den : ℚ)) ≠ 0 := by
    exact_mod_cast Nat.cast_ne_zero.mpr q.den_nz
  have hrw : q + 1/2 =
      ((2 * q.num + (q.den : ℤ) : ℤ) : ℚ) / ((2 * q.den : ℕ) : ℚ) := by
    conv_lhs =>
      rw [show q = (q.num : ℚ) / (q.den : ℚ) from (Rat.num_div_den q).symm]
    push_cast
    field_simp
    ring
  rw [hrw, Rat.floor_intCast_div_natCast]
  unfold jsRound
  push_cast
  rfl

/-- Rounding the rational zero gives the integer zero. -/
theorem jsRound_zero : jsRound 0 = 0 := by decide

/-- C7 counterexample. The claim says an explanation of length at
least 20 characters scores clarity 4; the code tests strictly greater
than 20, so an explanation of exactly 20 characters scores 2. -/
theorem claim_C7_counterexample :
    explanationTwenty.explanation.length = 20 ∧
    (llmScorecardModel (Except.error "provider down") (fun _ => none)
      explanationTwenty (some guideOneStep)).clarity = 2 ∧
    (llmScorecardModel (Except.error "provider down") (fun _ => none)
      explanationTwenty (some guideOneStep)).clarity ≠ 4 := by
  refine ⟨by decide, by decide, by decide⟩

/-- C7 (amended): whenever the Evaluation provider call fails or
returns unparseable output, the scorecard equals the deterministic
fallback formula — correctness = round(5·(total−blocked)/total) (0
with no actions), verification = min(plan steps, 5), safety = 5 with
no blocked actions else max(1, 5−blocked), clarity = 4 iff the
explanation is strictly longer than 20 characters else 2, and
autonomy = min(5, round(successRate·4)+1). -/
theorem claim_C7_theorem (llmResult : Except String String)
    (parse : String → Option RawScores) (impl : ImplementorOutput)
    (g : GuideOutput) (h : scoringFellBack llmResult parse) :
    llmScorecardModel llmResult parse impl (some g) =
      specFallbackFormula impl.actions.length impl.blocked.length
        g.plan.length impl.explanation.length := by
  have hfb : llmScorecardModel llmResult parse impl (some g) =
      fallbackScorecard impl (some g) := by
    cases llmResult with
    | error e => rfl
    | ok raw =>
      unfold scoringFellBack at h
      simp [llmScorecardModel, h]
  rw [hfb]
  simp only [fallbackScorecard, specFallbackFormula, Scorecard.mk.injEq]
  refine ⟨?_, trivial, trivial, trivial, ?_⟩
  · by_cases ht : impl.actions.length = 0
    · simp [ht, jsRound_zero]
    · have hpos : 0 < impl.actions.length := Nat.pos_of_ne_zero ht
      rw [if_pos hpos, if_neg ht]
      congr 1
      ring
  · by_cases ht : impl.actions.length = 0
    · simp [ht]
    · have hpos : 0 < impl.actions.length := Nat.pos_of_ne_zero ht
      rw [if_pos hpos, if_neg ht]

/-- Witness for C7: the fallback equality at a concrete failed
provider call. -/
theorem claim_C7_witness :
    llmScorecardModel (Except.error "rate limited") (fun _ => none)
      explanationTwenty (some guideOneStep) =
      specFallbackFormula explanationTwenty.actions.length
        explanationTwenty.blocked.length guideOneStep.plan.length
        explanationTwenty.explanation.length :=
  claim_C7_theorem _ _ _ _ trivial

/-! ## Claim C8 — Safety Validation stage -/

/-- C8 (confirmed): the overall safe flag is true only if the
blocked-actions list is empty and the approval-required flag is false;
and any plan in which some task has the step "rm -rf /tmp/data" yields
a non-empty blocked-actions list with an entry referencing the
"rm -rf" pattern, and safe = false. -/
theorem claim_C8_theorem (tasks : List PlannerTask) (cx : Complexity)
    (lvl : Nat) (now : String) :
    ((safetyGuardRun tasks cx lvl now).safe = true →
      (safetyGuardRun tasks cx lvl now).blockedActions = [] ∧
      (safetyGuardRun tasks cx lvl now).requiresApproval = false) ∧
    ((∃ t ∈ tasks, "rm -rf /tmp/data" ∈ t.steps) →
      (safetyGuardRun tasks cx lvl now).safe = false ∧
      (safetyGuardRun tasks cx lvl now).blockedActions ≠ [] ∧
      ∃ e ∈ (safetyGuardRun tasks cx lvl now).blockedActions,
        containsSub e "rm -rf" = true) := by
  have hba : (safetyGuardRun tasks cx lvl now).blockedActions =
      tasks.flatMap taskBlockedEntries := rfl
  constructor
  · intro hs
    have hsafe : (decide ((tasks.flatMap taskBlockedEntries).length = 0) &&
        !(safetyGuardRun tasks cx lvl now).requiresApproval) = true := hs
    rw [Bool.and_eq_true] at hsafe
    obtain ⟨h1, h2⟩ := hsafe
    refine ⟨?_, ?_⟩
    · rw [hba]
      exact List.length_eq_zero.mp (of_decide_eq_true h1)
    · simpa using h2
  · rintro ⟨t, ht, hstep⟩
    have hpat : "rm -rf" ∈ stepPatternHits "rm -rf /tmp/data" := by decide
    have he : ("Task " ++ t.id ++ ": Step \"" ++ "rm -rf /tmp/data" ++
        "\" contains dangerous pattern \"" ++ "rm -rf" ++ "\"") ∈
        stepBlockedEntries t "rm -rf /tmp/data" :=
      List.mem_map.mpr ⟨"rm -rf", hpat, rfl⟩
    have he2 : ("Task " ++ t.id ++ ": Step \"" ++ "rm -rf /tmp/data" ++
        "\" contains dangerous pattern \"" ++ "rm -rf" ++ "\"") ∈
        taskBlockedEntries t :=
      List.mem_append_left _ (List.mem_flatMap.mpr ⟨"rm -rf /tmp/data", hstep, he⟩)
    have he3 : ("Task " ++ t.id ++ ": Step \"" ++ "rm -rf /tmp/data" ++
        "\" contains dangerous pattern \"" ++ "rm -rf" ++ "\"") ∈
        tasks.flatMap taskBlockedEntries :=
      List.mem_flatMap.mpr ⟨t, ht, he2⟩
    have hne : tasks.flatMap taskBlockedEntries ≠ [] :=
      List.ne_nil_of_mem he3
    refine ⟨?_, ?_, ?_⟩
    · show (decide ((tasks.flatMap taskBlockedEntries).length = 0) &&
        !(safetyGuardRun tasks cx lvl now).requiresApproval) = false
      have : decide ((tasks.flatMap taskBlockedEntries).length = 0) = false := by
        apply decide_eq_false
        intro h0
        exact hne (List.length_eq_zero.mp h0)
      rw [this]
      exact Bool.false_and _
    · rw [hba]; exact hne
    · refine ⟨"Task " ++ t.id ++ ": Step \"" ++ "rm -rf /tmp/data" ++
        "\" contains dangerous pattern \"" ++ "rm -rf" ++ "\"", hba ▸ he3, ?_⟩
      show occursIn ("rm -rf" : String).data
        (("Task " ++ t.id ++ ": Step \"" ++ "rm -rf /tmp/data" ++
          "\" contains dangerous pattern \"" ++ "rm -rf" ++ "\"").data) = true
      have hsplit : ("Task " ++ t.id ++ ": Step \"" ++ "rm -rf /tmp/data" ++
          "\" contains dangerous pattern \"" ++ "rm -rf" ++ "\"").data =
          ("Task " ++ t.id ++ ": Step \"" ++ "rm -rf /tmp/data" ++
            "\" contains dangerous pattern \"").data ++
          (("rm -rf" : String).data ++ ("\"" : String).data) := by
        rw [string_data_append, string_data_append, List.append_assoc]
      rw [hsplit]
      apply occursIn_append_right
      decide

/-- Witness for C8: both conjuncts applied at concrete plans. -/
theorem claim_C8_witness :
    ((safetyGuardRun [safeDemoTask] .low 1 "t0").blockedActions = [] ∧
     (safetyGuardRun [safeDemoTask] .low 1 "t0").requiresApproval = false) ∧
    ((safetyGuardRun [dangerDemoTask] .low 1 "t0").safe = false ∧
     (safetyGuardRun [dangerDemoTask] .low 1 "t0").blockedActions ≠ [] ∧
     ∃ e ∈ (safetyGuardRun [dangerDemoTask] .low 1 "t0").blockedActions,
       containsSub e "rm -rf" = true) := by
  constructor
  · exact (claim_C8_theorem [safeDemoTask] .low 1 "t0").1 (by decide)
  · exact (claim_C8_theorem [dangerDemoTask] .low 1 "t0").2
      ⟨dangerDemoTask, List.mem_singleton.mpr rfl, by decide⟩

/-! ## Orchestrator-level lemmas -/

/-- A failing pass makes `orchestratorRun` report the wrapped message
and leave the whole orchestrator state — improvement notes, standalone
level, policy and memory — exactly as it was. -/
theorem orchestratorRun_error_state (cfg : RunConfig) (st : OrchestratorState)
    (request : String) (em : String × MemoryState)
    (h : pipelineOutputs cfg st request = .error em) :
    orchestratorRun cfg st request =
      (.error ("Pipeline run " ++ cfg.runId ++ " failed: " ++ em.1), st) := by
  have hmem : em.2 = st.mem :=
    (pipelineOutputs_spec cfg st request _ h).1 em rfl
  unfold orchestratorRun
  simp only [h]
  rw [hmem]

/-- On a successful pass the improvement feedback loop overwrites the
carry-over slot exactly when the run produced at least one note. -/
theorem orchestratorRun_ok_prevImprovements (cfg : RunConfig)
    (st : OrchestratorState) (request : String) (om : FullOutputs × MemoryState)
    (h : pipelineOutputs cfg st request = .ok om) :
    ((orchestratorRun cfg st request).2).previousImprovements =
      (if 0 < om.1.gatekeeper.improvements.length
       then om.1.gatekeeper.improvements
       else st.previousImprovements) := by
  have hva := ((pipelineOutputs_spec cfg st request _ h).2 om rfl).2.1
  unfold orchestratorRun
  simp only [h]
  rw [if_pos hva]

/-- Neither branch of `orchestratorRun` touches the policy object. -/
theorem orchestratorRun_policy_frame (cfg : RunConfig) (st : OrchestratorState)
    (request : String) :
    ((orchestratorRun cfg st request).2).policy = st.policy := by
  unfold orchestratorRun
  cases hp : pipelineOutputs cfg st request with
  | error em => rfl
  | ok om =>
    by_cases hva : validateRunArtifact (mkArtifact cfg request om.1) = true
    · simp only [if_pos hva]
    · simp only [if_neg hva]

/-- The policy survives any number of chained runs. -/
theorem runMany_policy (cfgs : List (RunConfig × String)) (st : OrchestratorState) :
    (runMany cfgs st).policy = st.policy := by
  induction cfgs generalizing st with
  | nil => rfl
  | cons c cs ih =>
    show (runMany cs (orchestratorRun c.1 st c.2).2).policy = st.policy
    rw [ih]
    exact orchestratorRun_policy_frame c.1 st c.2

/-! ## Claim C4 — run-level error handling -/

set_option maxRecDepth 100000 in
/-- C4: whenever a stage throws (provider failure, missing prior
context, or schema violation), the run fails with the single message
"Pipeline run <id> failed: <cause>" and the whole orchestrator state —
the carried-over improvement notes, the standalone permission level,
the policy and the memory (so no RunArtifact or PortfolioEntry, not
even a partial one) — is left exactly as before the run. Concretely,
the provider-failure run `demoCfgFail` reports "Pipeline run run-003
failed: LLM provider unavailable" and returns the starting state
unchanged. -/
theorem claim_C4_theorem :
    (∀ cfg st request,
      match pipelineOutputs cfg st request with
      | .error em =>
        orchestratorRun cfg st request =
          (.error ("Pipeline run " ++ cfg.runId ++ " failed: " ++ em.1), st)
      | .ok _ => True) ∧
    orchestratorRun demoCfgFail demoState demoRequest =
      (.error "Pipeline run run-003 failed: LLM provider unavailable", demoState) := by
  constructor
  · intro cfg st request
    cases hp : pipelineOutputs cfg st request with
    | error em => exact orchestratorRun_error_state cfg st request em hp
    | ok om => trivial
  · exact orchestratorRun_error_state demoCfgFail demoState demoRequest
      ("LLM provider unavailable", demoState.mem) rfl

/-! ## Claim C1 — lesson disposition -/

set_option maxRecDepth 100000 in
/-- C1 (refuted — code bug): the Evaluation stage never disposes of
any candidate lesson. On every completed pass the approved and
rejected lists are empty and the memory leaves the run exactly as it
entered it, because the orchestrator runs the Gatekeeper before the
Learner, so the context's `learner` slot is still empty when the
lesson loop would fire. In the claimed scenario itself — total score
21, two candidate lessons proposed by the Reflection stage — both
lists come back empty instead of two approvals. -/
theorem claim_C1_theorem :
    (∀ cfg st request,
      match pipelineOutputs cfg st request with
      | .ok om =>
        om.1.gatekeeper.approvedLessons = [] ∧
        om.1.gatekeeper.rejectedLessons = [] ∧
        om.2 = st.mem
      | .error _ => True) ∧
    Except.map (fun om =>
        (om.1.gatekeeper.totalScore,
         om.1.learner.candidateLessons.length,
         om.1.gatekeeper.approvedLessons.length,
         om.1.gatekeeper.rejectedLessons.length))
      (pipelineOutputs demoCfg21 demoState demoRequest) =
      .ok ((21 : ℤ), 2, 0, 0) := by
  constructor
  · intro cfg st request
    cases hp : pipelineOutputs cfg st request with
    | error em => trivial
    | ok om =>
      have hs := (pipelineOutputs_spec cfg st request _ hp).2 om rfl
      exact ⟨hs.2.2.1, hs.2.2.2.1, hs.1⟩
  · rfl

/-! ## Claim C3 — promotion decision and feedback loop -/

set_option maxRecDepth 100000 in
/-- C3 (refuted — code bug): the promote (≥20) and clone (≥22)
thresholds hold, and the Orchestrator does apply the proposed level to
the standalone state, but the proposed level when promoting is always
1 — the Gatekeeper reads `currentLevel` from the context's still-empty
learner slot and defaults it to 0 — never the standalone level plus
one. Concretely: two consecutive promoted runs leave the standalone
level at 1, the second still proposing level 1 instead of 2. -/
theorem claim_C3_theorem :
    (∀ cfg st request,
      match pipelineOutputs cfg st request with
      | .ok om =>
        om.1.gatekeeper.decision.promote =
          decide ((20 : ℤ) ≤ om.1.gatekeeper.totalScore) ∧
        om.1.gatekeeper.decision.allowClone =
          decide ((22 : ℤ) ≤ om.1.gatekeeper.totalScore) ∧
        om.1.gatekeeper.decision.newLevel =
          (if (20 : ℤ) ≤ om.1.gatekeeper.totalScore then some 1 else none)
      | .error _ => True) ∧
    ((orchestratorRun demoCfg21 demoState demoRequest).2.learnerLevel = 1 ∧
     Except.map (fun om => om.1.gatekeeper.decision.newLevel)
       (pipelineOutputs demoCfg21
         (orchestratorRun demoCfg21 demoState demoRequest).2 demoRequest) =
       .ok (some 1) ∧
     (orchestratorRun demoCfg21
       (orchestratorRun demoCfg21 demoState demoRequest).2 demoRequest).2.learnerLevel
       = 1) := by
  constructor
  · intro cfg st request
    cases hp : pipelineOutputs cfg st request with
    | error em => trivial
    | ok om =>
      have hs := (pipelineOutputs_spec cfg st request _ hp).2 om rfl
      exact ⟨hs.2.2.2.2.2.1, hs.2.2.2.2.2.2.1, hs.2.2.2.2.2.2.2.1⟩
  · exact ⟨rfl, rfl, rfl⟩

/-! ## Claim C5 — improvement feedback loop -/

set_option maxRecDepth 100000 in
/-- Counterexample to C5 as stated: a completed run whose Evaluation
stage produced no improvement notes (all dimensions scored 5, no plan
risks) leaves the previous run's note in the carry-over slot, so the
slot does not equal "exactly that run's notes and nothing else". -/
theorem claim_C5_counterexample :
    Except.map (fun om => om.1.gatekeeper.improvements)
      (pipelineOutputs demoCfg25 stOld demoRequest) = .ok [] ∧
    (orchestratorRun demoCfg25 stOld demoRequest).2.previousImprovements =
      ["old note"] :=
  ⟨rfl, rfl⟩

set_option maxRecDepth 100000 in
/-- C5 (amended): the carry-over slot is single-slot but is only
overwritten when the run produced at least one improvement note — an
empty note list leaves the previous notes in place — and the notes in
the slot are injected into the next run's Guidance as
"Improvement: "-prefixed best practices (first three). Concretely, a
run started from a state carrying "old note" surfaces
"Improvement: old note" among its guide best practices, and a run
that does produce notes overwrites the slot with exactly them. -/
theorem claim_C5_theorem :
    (∀ cfg st request,
      match pipelineOutputs cfg st request with
      | .ok om =>
        (orchestratorRun cfg st request).2.previousImprovements =
          (if 0 < om.1.gatekeeper.improvements.length
           then om.1.gatekeeper.improvements
           else st.previousImprovements) ∧
        ((st.previousImprovements.take 3).all (fun x =>
          om.1.guide.bestPractices.contains ("Improvement: " ++ x))) = true
      | .error _ =>
        (orchestratorRun cfg st request).2.previousImprovements =
          st.previousImprovements) ∧
    (Except.map (fun om =>
        om.1.guide.bestPractices.contains "Improvement: old note")
      (pipelineOutputs demoCfg21 stOld demoRequest) = .ok true ∧
     (orchestratorRun demoCfg21 stOld demoRequest).2.previousImprovements =
       ["Reduce unnecessary approval requests for safe operations"]) := by
  constructor
  · intro cfg st request
    cases hp : pipelineOutputs cfg st request with
    | error em =>
      rw [orchestratorRun_error_state cfg st request em hp]
    | ok om =>
      have hs := (pipelineOutputs_spec cfg st request _ hp).2 om rfl
      exact ⟨orchestratorRun_ok_prevImprovements cfg st request om hp,
             hs.2.2.2.2.2.2.2.2⟩
  · exact ⟨rfl, rfl⟩

/-! ## Claim C10 — the policy is never mutated -/

/-- C10: no run mutates the Orchestrator's permission-policy object —
promotion only updates the Learner's standalone level — so the policy
consulted by the Safety stage and by the per-action evaluator, and
with it every `checkPermission` verdict, is identical before and
after any number of completed runs. -/
theorem claim_C10_theorem :
    (∀ cfg st request,
      ((orchestratorRun cfg st request).2).policy = st.policy) ∧
    (∀ cfgs st, (runMany cfgs st).policy = st.policy) ∧
    (∀ cfgs st (a : ImplementorAction),
      checkPermission a (runMany cfgs st).policy =
        checkPermission a st.policy) := by
  refine ⟨orchestratorRun_policy_frame, runMany_policy, fun cfgs st a => ?_⟩
  rw [runMany_policy]

end AgencyCore
